import Mathlib

/-! Gateway and resource services: a shallow embedding.

The four programs of the repository (`api-gateway`, `customer-service`,
`product-service`, `order-service`) are Express applications.  Every request
handler is embedded as a pure function of the request and of the persistence
adapter, the adapter being an oracle from the query that was built to the
`{ data, error }` pair it answers with.  A handler returns the list of adapter
calls it issued together with what happened to the response.

Conventions of the embedding:

* JavaScript values are the JSON values plus `undefined`; a number is `NaN`,
  an infinity, the negative zero or the rational value of a finite double, and
  the conversion of a string to a number rounds to the nearest double;
* a conversion that raises `TypeError` in JavaScript returns `none`, and a
  handler in which that happens ends with `Outcome.throws` (no response is
  written by the handler);
* `req.body` is the parsed JSON object, an association list in which the first
  binding of a key is the effective one.
-/

namespace Microservice

/-! ## JavaScript values -/

/-- A JavaScript number: `NaN`, the two infinities, the negative zero `-0`, or
a finite value (`fin 0` is the positive zero). -/
inductive JSNum where
  | nan
  | posInf
  | negInf
  | negZero
  | fin (q : ℚ)
  deriving DecidableEq, Repr

namespace JSNum

/-- The test `n !== n`, which is what `isNaN` answers on a number. -/
def isNaN : JSNum → Bool
  | nan => true
  | _ => false

/-- The comparison `n < 0`; it is false on `NaN`. -/
def ltZero : JSNum → Bool
  | negInf => true
  | fin q => decide (q < 0)
  | _ => false

/-- The comparison `n >= 0`; it is false on `NaN` and true on `-0`. -/
def geZero : JSNum → Bool
  | posInf => true
  | negZero => true
  | fin q => decide (0 ≤ q)
  | _ => false

/-- Unary minus. -/
def neg : JSNum → JSNum
  | nan => nan
  | posInf => negInf
  | negInf => posInf
  | negZero => fin 0
  | fin q => if q = 0 then negZero else fin (-q)

end JSNum

/-- A JavaScript value as it can occur in a parsed JSON body, in a query
builder argument or in a response body. -/
inductive JSVal where
  | undefined
  | null
  | bool (b : Bool)
  | num (n : JSNum)
  | str (s : String)
  | arr (xs : List JSVal)
  | obj (kvs : List (String × JSVal))

/-- An object as an association list of own properties. -/
abbrev JSObj := List (String × JSVal)

/-- Property read `o.k` on an object without inherited data properties:
`undefined` when the key is not an own property. -/
def getField : JSObj → String → JSVal
  | [], _ => .undefined
  | (k, v) :: rest, key => if k = key then v else getField rest key

/-- The test `k in Object.keys(o)`. -/
def hasKey : JSObj → String → Bool
  | [], _ => false
  | (k, _) :: rest, key => if k = key then true else hasKey rest key

namespace JSVal

/-- The test `v === undefined`. -/
def isUndefined : JSVal → Bool
  | undefined => true
  | _ => false

/-- The test `v === null`. -/
def isNull : JSVal → Bool
  | null => true
  | _ => false

/-- ToBoolean: the falsy values are `undefined`, `null`, `false`, `0`, `-0`,
`NaN` and the empty string. -/
def truthy : JSVal → Bool
  | undefined => false
  | null => false
  | bool b => b
  | num .nan => false
  | num .negZero => false
  | num (.fin q) => decide (q ≠ 0)
  | num _ => true
  | str s => decide (s ≠ "")
  | arr _ => true
  | obj _ => true

end JSVal

/-! ## String to number (the StringNumericLiteral grammar) -/

/-- The characters StringToNumber strips: WhiteSpace and LineTerminator. -/
def isStrWhiteSpace (c : Char) : Bool :=
  let n := c.toNat
  n = 0x9 || n = 0xA || n = 0xB || n = 0xC || n = 0xD || n = 0x20 || n = 0xA0
    || n = 0x1680 || (0x2000 ≤ n && n ≤ 0x200A) || n = 0x2028 || n = 0x2029
    || n = 0x202F || n = 0x205F || n = 0x3000 || n = 0xFEFF

/-- Strip leading and trailing white space. -/
def trimStr (cs : List Char) : List Char :=
  ((cs.dropWhile isStrWhiteSpace).reverse.dropWhile isStrWhiteSpace).reverse

/-- Value of a digit in a radix up to 16, if it is one. -/
def digitValue (radix : Nat) (c : Char) : Option Nat :=
  let v : Option Nat :=
    if c.isDigit then some (c.toNat - 48)
    else if 97 ≤ c.toNat ∧ c.toNat ≤ 102 then some (c.toNat - 87)
    else if 65 ≤ c.toNat ∧ c.toNat ≤ 70 then some (c.toNat - 55)
    else none
  v.bind fun d => if d < radix then some d else none

/-- Value of a non-empty run of digits of the radix; `none` otherwise. -/
def digitsValue (radix : Nat) (cs : List Char) : Option Nat :=
  if cs.isEmpty then none
  else cs.foldl (fun acc c => acc.bind fun a => (digitValue radix c).map fun d => a * radix + d)
    (some 0)

/-- The integer nearest to `n / d`, a tie going to the even one. -/
def roundHalfEven (n d : Nat) : Nat :=
  let k := n / d
  let r := n % d
  if 2 * r < d then k else if d < 2 * r then k + 1 else if k % 2 = 0 then k else k + 1

/-- The number of binary digits of `n`, counted in at most `fuel` halvings. -/
def bitLength : Nat → Nat → Nat
  | 0, _ => 0
  | fuel + 1, n => if n = 0 then 0 else bitLength fuel (n / 2) + 1

/-- The integer part of the binary logarithm of `n / d`, for positive `n` and
`d`: it is the difference of the two bit lengths or one less. -/
def floorLog2 (n d : Nat) : Int :=
  let e : Int := (bitLength n n : Int) - (bitLength d d : Int)
  if (if 0 ≤ e then 2 ^ e.toNat * d ≤ n else d ≤ n * 2 ^ (-e).toNat) then e else e - 1

/-- The Number value for the mathematical value `n / d` (with `d` positive):
the nearest double, ties to even, with 53 significant bits down to the least
normal exponent `-1022` and the fixed quantum `2 ^ -1074` below it, and
`Infinity` once the rounded value reaches `2 ^ 1024`. -/
def roundToDouble (n d : Nat) : JSNum :=
  if n = 0 then .fin 0
  else
    let e := floorLog2 n d
    let qe : Int := max e (-1022) - 52
    if 0 ≤ qe then
      let m := roundHalfEven n (d * 2 ^ qe.toNat)
      if 2 ^ 1024 ≤ m * 2 ^ qe.toNat then .posInf else .fin ((m * 2 ^ qe.toNat : Nat) : ℚ)
    else
      let m := roundHalfEven (n * 2 ^ (-qe).toNat) d
      .fin (mkRat m (2 ^ (-qe).toNat))

/-- The Number value for `m * 10 ^ e`. -/
def scale10 (m : Nat) (e : Int) : JSNum :=
  if 0 ≤ e then roundToDouble (m * 10 ^ e.toNat) 1 else roundToDouble m (10 ^ (-e).toNat)

/-- ExponentPart: nothing, or `e`/`E`, an optional sign and decimal digits. -/
def parseExponent : List Char → Option Int
  | [] => some 0
  | c :: rest =>
    if c = 'e' ∨ c = 'E' then
      match rest with
      | '+' :: ds => (digitsValue 10 ds).map fun n => (n : Int)
      | '-' :: ds => (digitsValue 10 ds).map fun n => -(n : Int)
      | ds => (digitsValue 10 ds).map fun n => (n : Int)
    else none

/-- StrUnsignedDecimalLiteral: `Infinity`, or digits with an optional
fraction and exponent (`12`, `12.`, `12.5`, `.5`, `1e3`). -/
def parseUnsignedDecimal (cs : List Char) : Option JSNum :=
  if cs = "Infinity".data then some .posInf
  else
    let ip := cs.takeWhile Char.isDigit
    let rest := cs.dropWhile Char.isDigit
    let (fp, rest2, ok) : List Char × List Char × Bool :=
      match rest with
      | '.' :: r => (r.takeWhile Char.isDigit, r.dropWhile Char.isDigit,
          !(ip.isEmpty && (r.takeWhile Char.isDigit).isEmpty))
      | r => ([], r, !ip.isEmpty)
    if ok then
      (parseExponent rest2).bind fun e =>
        ((digitsValue 10 ('0' :: (ip ++ fp))).map fun m =>
          scale10 m (e - fp.length))
    else none

/-- StrNumericLiteral: a signed decimal literal or an unsigned binary, octal
or hexadecimal integer literal. -/
def parseNumeric : List Char → Option JSNum
  | '0' :: 'x' :: ds => (digitsValue 16 ds).map fun n => roundToDouble n 1
  | '0' :: 'X' :: ds => (digitsValue 16 ds).map fun n => roundToDouble n 1
  | '0' :: 'o' :: ds => (digitsValue 8 ds).map fun n => roundToDouble n 1
  | '0' :: 'O' :: ds => (digitsValue 8 ds).map fun n => roundToDouble n 1
  | '0' :: 'b' :: ds => (digitsValue 2 ds).map fun n => roundToDouble n 1
  | '0' :: 'B' :: ds => (digitsValue 2 ds).map fun n => roundToDouble n 1
  | '+' :: ds => parseUnsignedDecimal ds
  | '-' :: ds => (parseUnsignedDecimal ds).map JSNum.neg
  | ds => parseUnsignedDecimal ds

/-- StringToNumber: `0` on a blank string, the literal's value rounded to a
double when the trimmed string is a numeric literal, `NaN` otherwise. -/
def stringToNumber (s : String) : JSNum :=
  let cs := trimStr s.data
  if cs.isEmpty then .fin 0 else (parseNumeric cs).getD .nan

/-! ## ToNumber -/

mutual
/-- Whether ToString of the value raises `TypeError`: it does on an object
whose own `toString` property shadows the inherited method with a value that
is not callable, and on an array that contains such a value. -/
def toStringThrows : JSVal → Bool
  | .arr xs => anyToStringThrows xs
  | .obj kvs => hasKey kvs "toString"
  | _ => false
/-- Whether ToString raises on some element of the list; `join` skips
`undefined` and `null`. -/
def anyToStringThrows : List JSVal → Bool
  | [] => false
  | x :: xs => toStringThrows x || anyToStringThrows xs
end

mutual
/-- The number `Number(String(v))` for an array element `v`, as
`Array.prototype.join` renders it; `none` when rendering raises.  A number is
rendered by a literal that reads back as the same number, except `-0`, which
is rendered `0`. -/
def elemToNumber : JSVal → Option JSNum
  | .undefined => some (.fin 0)
  | .null => some (.fin 0)
  | .bool _ => some .nan
  | .num .negZero => some (.fin 0)
  | .num n => some n
  | .str s => some (stringToNumber s)
  | .arr xs => arrToNumber xs
  | .obj kvs => if hasKey kvs "toString" then none else some .nan
/-- The number `Number(xs.join(","))`: the empty array renders as the empty
string, a singleton as its element, and a longer array contains a comma, which
no numeric literal does. -/
def arrToNumber : List JSVal → Option JSNum
  | [] => some (.fin 0)
  | [x] => elemToNumber x
  | x :: y :: rest => if anyToStringThrows (x :: y :: rest) then none else some .nan
end

/-- ToNumber, the conversion behind `Number(v)` and `isNaN(v)`; `none` when
it raises `TypeError`. -/
def toNumber : JSVal → Option JSNum
  | .undefined => some .nan
  | .null => some (.fin 0)
  | .bool b => some (.fin (if b then 1 else 0))
  | .num n => some n
  | .str s => some (stringToNumber s)
  | .arr xs => arrToNumber xs
  | .obj kvs => if hasKey kvs "toString" then none else some .nan

/-! ## The persistence adapter -/

/-- One step of a query-builder chain, in the order the source writes them:
`supabase.from(t)`, `.select('*')`, `.select()`, `.insert([row])`,
`.update(fields)`, `.delete()`, `.eq(column, value)`, `.single()`. -/
inductive QStep where
  | from_ (table : String)
  | selectAll
  | select
  | insert (row : JSObj)
  | update (fields : JSObj)
  | delete
  | eq (column : String) (value : JSVal)
  | single

/-- A call to the store: the chain that is awaited. -/
abbrev StoreCall := List QStep

/-- The `error` object of an adapter answer.  `code` is `error.code` when it
is a string; `message` is `error.message` when it is a string, and `none` when
the error carries no message (`error.message` is `undefined`). -/
structure StoreError where
  code : Option String
  message : Option String

/-- The pair `{ data, error }` an awaited chain resolves to; `error` is `none`
for `null`. -/
structure StoreResult where
  data : JSVal
  error : Option StoreError

/-- The adapter: what the store answers to each call. -/
abbrev Store := StoreCall → StoreResult

/-- The method `s.includes(t)` on strings: `t` occurs in `s` as a substring. -/
def includes (s t : String) : Bool :=
  s.data.tails.any fun u => t.data.isPrefixOf u

/-- The test `error.message.includes(t)`; `none` when `error.message` is `undefined`,
where the property access on it raises `TypeError`. -/
def messageIncludes (e : StoreError) (t : String) : Option Bool :=
  e.message.map fun m => includes m t

/-! ## Responses -/

/-- What a handler writes: `res.status(status).json(body)` (or `.send(body)`);
`res.json(body)` alone has status 200. -/
structure Response where
  status : Nat
  body : JSVal

/-- How a handler ends: with a response, or with an exception raised before
any response was written. -/
inductive Outcome where
  | respond (r : Response)
  | throws

/-- A handler run: the store calls it issued, in order, and its outcome. -/
structure Run where
  calls : List StoreCall
  outcome : Outcome

/-- The status code of a run that responded. -/
def Run.status (r : Run) : Option Nat :=
  match r.outcome with
  | .respond resp => some resp.status
  | .throws => none

/-- Body `{ error: text }`. -/
def errorBody (text : String) : JSVal := .obj [("error", .str text)]

/-- Body `{ message: text }`. -/
def messageBody (text : String) : JSVal := .obj [("message", .str text)]

/-- A run that answers without calling the store. -/
def reject (status : Nat) (body : JSVal) : Run := ⟨[], .respond ⟨status, body⟩⟩

/-! ## customer-service/server.js -/

/-- Handler of `GET /customers`. -/
def getCustomers (store : Store) : Run :=
  let call : StoreCall := [.from_ "customers", .selectAll]
  let r := store call
  ⟨[call],
    match r.error with
    | some _ => .respond ⟨500, errorBody "Lỗi server nội bộ"⟩
    | none => .respond ⟨200, r.data⟩⟩

/-- Handler of `GET /customers/:id`. -/
def getCustomerById (id : String) (store : Store) : Run :=
  let call : StoreCall := [.from_ "customers", .selectAll, .eq "id" (.str id), .single]
  let r := store call
  ⟨[call],
    match r.error with
    | some e =>
      if e.code = some "PGRST116" then
        .respond ⟨404, messageBody "Không tìm thấy khách hàng"⟩
      else .respond ⟨500, errorBody "Lỗi server nội bộ"⟩
    | none =>
      if !r.data.truthy then
        .respond ⟨404, messageBody "Không tìm thấy khách hàng"⟩
      else .respond ⟨200, r.data⟩⟩

/-- Handler of `POST /customers`. -/
def postCustomer (body : JSObj) (store : Store) : Run :=
  let name := getField body "name"
  let email := getField body "email"
  let address := getField body "address"
  if !name.truthy || !email.truthy then
    reject 400 (errorBody "Tên và email là bắt buộc")
  else
    let call : StoreCall :=
      [.from_ "customers", .insert [("name", name), ("email", email), ("address", address)],
        .select, .single]
    let r := store call
    ⟨[call],
      match r.error with
      | some e =>
        if e.code = some "23505" then
          .respond ⟨409, errorBody "Email đã tồn tại"⟩
        else .respond ⟨500, errorBody "Lỗi server nội bộ khi tạo khách hàng"⟩
      | none => .respond ⟨201, r.data⟩⟩

/-- The object `updates` that `PUT /customers/:id` builds from the body. -/
def customerUpdates (body : JSObj) : JSObj :=
  let name := getField body "name"
  let email := getField body "email"
  let address := getField body "address"
  let updates : JSObj := []
  let updates := if name.truthy then updates ++ [("name", name)] else updates
  let updates := if email.truthy then updates ++ [("email", email)] else updates
  let updates := if !address.isUndefined then updates ++ [("address", address)] else updates
  updates

/-- Handler of `PUT /customers/:id`. -/
def putCustomer (id : String) (body : JSObj) (store : Store) : Run :=
  let updates := customerUpdates body
  if updates.length = 0 then
    reject 400 (errorBody "Không có thông tin nào được cung cấp để cập nhật")
  else
    let call : StoreCall :=
      [.from_ "customers", .update updates, .eq "id" (.str id), .select, .single]
    let r := store call
    ⟨[call],
      match r.error with
      | some e =>
        if e.code = some "PGRST116" then
          .respond ⟨404, messageBody "Không tìm thấy khách hàng để cập nhật"⟩
        else
          match messageIncludes e "exactly one row" with
          | none => .throws
          | some true =>
            .respond ⟨404, messageBody "Không tìm thấy khách hàng để cập nhật"⟩
          | some false =>
            if e.code = some "23505" then
              .respond ⟨409, errorBody "Email đã tồn tại"⟩
            else
              .respond ⟨500, errorBody "Lỗi server nội bộ khi cập nhật khách hàng"⟩
      | none =>
        if !r.data.truthy then
          .respond ⟨404, messageBody "Không tìm thấy khách hàng sau khi cập nhật"⟩
        else .respond ⟨200, r.data⟩⟩

/-- Handler of `DELETE /customers/:id`. -/
def deleteCustomer (id : String) (store : Store) : Run :=
  let call : StoreCall := [.from_ "customers", .delete, .eq "id" (.str id), .select, .single]
  let r := store call
  ⟨[call],
    match r.error with
    | some _ => .respond ⟨500, errorBody "Lỗi server nội bộ khi xóa khách hàng"⟩
    | none =>
      if !r.data.truthy then
        .respond ⟨404, messageBody "Không tìm thấy khách hàng để xóa"⟩
      else
        .respond ⟨200, .obj [("message", .str "Khách hàng đã được xóa thành công"),
          ("deletedCustomer", r.data)]⟩⟩

/-! ## product-service/server.js -/

/-- Handler of `GET /products`. -/
def getProducts (store : Store) : Run :=
  let call : StoreCall := [.from_ "products", .selectAll]
  let r := store call
  ⟨[call],
    match r.error with
    | some _ => .respond ⟨500, errorBody "Lỗi server nội bộ"⟩
    | none => .respond ⟨200, r.data⟩⟩

/-- Handler of `GET /products/:id`. -/
def getProductById (id : String) (store : Store) : Run :=
  let call : StoreCall := [.from_ "products", .selectAll, .eq "id" (.str id), .single]
  let r := store call
  ⟨[call],
    match r.error with
    | some e =>
      if e.code = some "PGRST116" then
        .respond ⟨404, messageBody "Không tìm thấy sản phẩm"⟩
      else .respond ⟨500, errorBody "Lỗi server nội bộ"⟩
    | none =>
      if !r.data.truthy then
        .respond ⟨404, messageBody "Không tìm thấy sản phẩm"⟩
      else .respond ⟨200, r.data⟩⟩

/-- The insert and the answer of `POST /products`, once `price` and `stock`
have been validated and converted. -/
def postProductInsert (name description : JSVal) (price stock : JSNum) (store : Store) : Run :=
  let call : StoreCall :=
    [.from_ "products", .insert [("name", name), ("description", description),
      ("price", .num price), ("stock", .num stock)], .select, .single]
  let r := store call
  ⟨[call],
    match r.error with
    | some _ => .respond ⟨500, errorBody "Lỗi server nội bộ khi tạo sản phẩm"⟩
    | none => .respond ⟨201, r.data⟩⟩

/-- Handler of `POST /products`. -/
def postProduct (body : JSObj) (store : Store) : Run :=
  let name := getField body "name"
  let description := getField body "description"
  let price := getField body "price"
  let stock := getField body "stock"
  if !name.truthy || price.isUndefined || price.isNull then
    reject 400 (errorBody "Tên và giá là bắt buộc")
  else
    match toNumber price with
    | none => ⟨[], .throws⟩
    | some p =>
      if p.isNaN || p.ltZero then
        reject 400 (errorBody "Giá phải là một số không âm")
      else if !stock.isUndefined then
        match toNumber stock with
        | none => ⟨[], .throws⟩
        | some q =>
          if q.isNaN || q.ltZero then
            reject 400 (errorBody "Số lượng tồn kho (stock) phải là một số không âm")
          else postProductInsert name description p q store
      else postProductInsert name description p (.fin 0) store

/-- The end of `PUT /products/:id`: the emptiness check on `updates`, the
store call and the answer. -/
def putProductUpdate (id : String) (updates : JSObj) (store : Store) : Run :=
  if updates.length = 0 then
    reject 400 (errorBody "Không có thông tin nào được cung cấp để cập nhật")
  else
    let call : StoreCall :=
      [.from_ "products", .update updates, .eq "id" (.str id), .select, .single]
    let r := store call
    ⟨[call],
      match r.error with
      | some e =>
        if e.code = some "PGRST116" then
          .respond ⟨404, messageBody "Không tìm thấy sản phẩm để cập nhật"⟩
        else
          match messageIncludes e "exactly one row" with
          | none => .throws
          | some true =>
            .respond ⟨404, messageBody "Không tìm thấy sản phẩm để cập nhật"⟩
          | some false =>
            .respond ⟨500, errorBody "Lỗi server nội bộ khi cập nhật sản phẩm"⟩
      | none =>
        if !r.data.truthy then
          .respond ⟨404, messageBody "Không tìm thấy sản phẩm sau khi cập nhật"⟩
        else .respond ⟨200, r.data⟩⟩

/-- The `stock` block of `PUT /products/:id`, then the rest of the handler. -/
def putProductStock (id : String) (updates : JSObj) (stock : JSVal) (store : Store) : Run :=
  if !stock.isUndefined then
    match toNumber stock with
    | none => ⟨[], .throws⟩
    | some q =>
      if q.isNaN || q.ltZero then
        reject 400 (errorBody "Số lượng tồn kho (stock) phải là một số không âm")
      else putProductUpdate id (updates ++ [("stock", .num q)]) store
  else putProductUpdate id updates store

/-- Handler of `PUT /products/:id`. -/
def putProduct (id : String) (body : JSObj) (store : Store) : Run :=
  let name := getField body "name"
  let description := getField body "description"
  let price := getField body "price"
  let stock := getField body "stock"
  let updates : JSObj := []
  let updates := if name.truthy then updates ++ [("name", name)] else updates
  let updates :=
    if !description.isUndefined then updates ++ [("description", description)] else updates
  if !price.isUndefined then
    match toNumber price with
    | none => ⟨[], .throws⟩
    | some p =>
      if p.isNaN || p.ltZero then
        reject 400 (errorBody "Giá phải là một số không âm")
      else putProductStock id (updates ++ [("price", .num p)]) stock store
  else putProductStock id updates stock store

/-- Handler of `DELETE /products/:id`. -/
def deleteProduct (id : String) (store : Store) : Run :=
  let call : StoreCall := [.from_ "products", .delete, .eq "id" (.str id), .select, .single]
  let r := store call
  ⟨[call],
    match r.error with
    | some _ => .respond ⟨500, errorBody "Lỗi server nội bộ khi xóa sản phẩm"⟩
    | none =>
      if !r.data.truthy then
        .respond ⟨404, messageBody "Không tìm thấy sản phẩm để xóa"⟩
      else
        .respond ⟨200, .obj [("message", .str "Sản phẩm đã được xóa thành công"),
          ("deletedProduct", r.data)]⟩⟩

/-! ## order-service/server.js -/

/-- Handler of `GET /orders`, with the optional `customerId` and `status` filters of the
query string. -/
def getOrders (query : JSObj) (store : Store) : Run :=
  let customerId := getField query "customerId"
  let status := getField query "status"
  let q : StoreCall := [.from_ "orders", .selectAll]
  let q := if customerId.truthy then q ++ [.eq "customer_id" customerId] else q
  let q := if status.truthy then q ++ [.eq "status" status] else q
  let r := store q
  ⟨[q],
    match r.error with
    | some _ => .respond ⟨500, errorBody "Lỗi server nội bộ"⟩
    | none => .respond ⟨200, r.data⟩⟩

/-- Handler of `GET /orders/:id`. -/
def getOrderById (id : String) (store : Store) : Run :=
  let call : StoreCall := [.from_ "orders", .selectAll, .eq "id" (.str id), .single]
  let r := store call
  ⟨[call],
    match r.error with
    | some e =>
      if e.code = some "PGRST116" then
        .respond ⟨404, messageBody "Không tìm thấy đơn hàng"⟩
      else .respond ⟨500, errorBody "Lỗi server nội bộ"⟩
    | none =>
      if !r.data.truthy then
        .respond ⟨404, messageBody "Không tìm thấy đơn hàng"⟩
      else .respond ⟨200, r.data⟩⟩

/-- The object `newOrder`, the insert and the answer of `POST /orders`, once
`total_amount` has been validated and converted. -/
def postOrderInsert (customer_id : JSVal) (total_amount : JSNum) (status : JSVal)
    (store : Store) : Run :=
  let newOrder : JSObj :=
    [("customer_id", customer_id), ("total_amount", .num total_amount),
      ("status", if status.truthy then status else .str "pending")]
  let call : StoreCall := [.from_ "orders", .insert newOrder, .select, .single]
  let r := store call
  ⟨[call],
    match r.error with
    | some _ => .respond ⟨500, errorBody "Lỗi server nội bộ khi tạo đơn hàng"⟩
    | none => .respond ⟨201, r.data⟩⟩

/-- Handler of `POST /orders`. -/
def postOrder (body : JSObj) (store : Store) : Run :=
  let customer_id := getField body "customer_id"
  let total_amount := getField body "total_amount"
  let status := getField body "status"
  if !customer_id.truthy || total_amount.isUndefined || total_amount.isNull then
    reject 400 (errorBody "customer_id và total_amount là bắt buộc")
  else
    match toNumber total_amount with
    | none => ⟨[], .throws⟩
    | some t =>
      if t.isNaN || t.ltZero then
        reject 400 (errorBody "Tổng tiền (total_amount) phải là một số không âm")
      else postOrderInsert customer_id t status store

/-- Handler of `PATCH /orders/:id/status`. -/
def patchOrderStatus (id : String) (body : JSObj) (store : Store) : Run :=
  let status := getField body "status"
  if !status.truthy then
    reject 400 (errorBody "Trạng thái (status) là bắt buộc")
  else
    let call : StoreCall :=
      [.from_ "orders", .update [("status", status)], .eq "id" (.str id), .select, .single]
    let r := store call
    ⟨[call],
      match r.error with
      | some e =>
        if e.code = some "PGRST116" then
          .respond ⟨404, messageBody "Không tìm thấy đơn hàng để cập nhật trạng thái"⟩
        else
          match messageIncludes e "exactly one row" with
          | none => .throws
          | some true =>
            .respond ⟨404, messageBody "Không tìm thấy đơn hàng để cập nhật trạng thái"⟩
          | some false =>
            .respond ⟨500, errorBody "Lỗi server nội bộ khi cập nhật trạng thái"⟩
      | none =>
        if !r.data.truthy then
          .respond ⟨404, messageBody "Không tìm thấy đơn hàng sau khi cập nhật trạng thái"⟩
        else .respond ⟨200, r.data⟩⟩

/-! ## api-gateway/server.js -/

/-- The backend a proxy middleware targets (`CUSTOMER_SERVICE_URL`,
`PRODUCT_SERVICE_URL`, `ORDER_SERVICE_URL`). -/
inductive Service where
  | customer
  | product
  | order
  deriving DecidableEq, Repr

/-- One `app.use(mount, createProxyMiddleware({ target, pathRewrite }))`.
`rewriteFrom` is the `pathRewrite` key without its `^` anchor and `rewriteTo`
its value. -/
structure ProxyRoute where
  mount : String
  target : Service
  rewriteFrom : String
  rewriteTo : String

/-- The three proxy middlewares, in registration order. -/
def routes : List ProxyRoute :=
  [⟨"/api/customers", .customer, "/api/customers", "/customers"⟩,
   ⟨"/api/products", .product, "/api/products", "/products"⟩,
   ⟨"/api/orders", .order, "/api/orders", "/orders"⟩]

/-- What the body parsers `express.json()` and `express.urlencoded()`, which
are registered before the routes, do with a request: pass it on (as they do
with a request without a body or of another content type), or fail with an
HTTP error status (400 for a malformed body, 413 for one that is too large,
415 for an unsupported charset or encoding), after which no route runs. -/
inductive BodyParse where
  | passed
  | failed (status : Nat)

/-- A character that keeps a request URL on the direct path of the URL parsers
of Express and of the proxy: a character of the one-byte range in which Node
reads the request line, not a control character or white space, and neither
`#` nor `@`. -/
def plainChar (c : Char) : Bool :=
  decide (33 ≤ c.toNat) && decide (c.toNat ≤ 255) && !isStrWhiteSpace c &&
    decide (c ≠ '#') && decide (c ≠ '@')

/-- The request URLs the embedding describes: origin-form URLs made of plain
characters.  On these, the path Express routes on and the path the proxy sends
are both read off the URL at its first `?`. -/
def plainUrl (url : List Char) : Bool :=
  decide (url.head? = some '/') && url.all plainChar

/-- The path of a request URL: what precedes the query string. -/
def pathname (url : List Char) : List Char :=
  url.takeWhile fun c => c ≠ '?'

/-- Match a literal pattern at the start of a string, letter case ignored, and
return what follows it.  The application is created by `express()` and never
enables `case sensitive routing`, so mount paths are compiled to regular
expressions with the `i` flag. -/
def stripPrefixCI : List Char → List Char → Option (List Char)
  | [], s => some s
  | _ :: _, [] => none
  | p :: ps, c :: cs => if c.toLower = p.toLower then stripPrefixCI ps cs else none

/-- Whether `app.use(mount, ...)` handles a path: the mount path matches at the
start and ends at a segment boundary (the end of the path or a `/`). -/
def mountMatches (mount path : List Char) : Bool :=
  match stripPrefixCI mount path with
  | some [] => true
  | some (c :: _) => c = '/'
  | none => false

/-- The rule `pathRewrite: { '^from': to }`: a case-sensitive replacement of
the prefix `from`; a URL the expression does not match is left as it is.  The
proxy middleware (configured through `onProxyReq` and `onError`) applies the
rule to `req.originalUrl`, the URL before Express strips the mount path. -/
def pathRewrite (rewriteFrom rewriteTo url : List Char) : List Char :=
  if rewriteFrom.isPrefixOf url then rewriteTo ++ url.drop rewriteFrom.length else url

/-- The replacement `replace(/\/+/g, '/')`: every run of slashes becomes one
slash. -/
def collapseSlashes : List Char → List Char
  | [] => []
  | c :: rest =>
    if c = '/' ∧ rest.head? = some '/' then collapseSlashes rest else c :: collapseSlashes rest

/-- The replacement `s.replace(pat, rep)` with a string pattern: the first
occurrence of `pat` is replaced. -/
def replaceFirst (pat rep : List Char) : List Char → List Char
  | [] => []
  | c :: rest =>
    if pat.isPrefixOf (c :: rest) then rep ++ (c :: rest).drop pat.length
    else c :: replaceFirst pat rep rest

/-- The path the proxy requests from the backend for the rewritten URL.  The
URL is parsed (a backslash before the query string becomes a slash) and its
path is joined to the path of the target address with a slash; in the part
before the first `?`, runs of slashes are collapsed, and then a first `http:/`
and a first `https:/` get their second slash back; the query string follows
unchanged. -/
def outgoingPath (targetPath url : List Char) : List Char :=
  let path := (pathname url).map fun c => if c = Char.ofNat 92 then '/' else c
  let joined := if targetPath.isEmpty then path else targetPath ++ '/' :: path
  replaceFirst "https:/".data "https://".data
      (replaceFirst "http:/".data "http://".data (collapseSlashes joined)) ++
    url.dropWhile fun c => c ≠ '?'

/-- What the gateway does with a request: hand it to a backend, which is asked
for the given URL; answer it itself; or, when a body parser failed, leave it
to the default error handler, which answers with the status of the failure. -/
inductive GatewayResult where
  | forward (target : Service) (url : String)
  | respond (r : Response)
  | parseError (status : Nat)

/-- The middleware chain of the gateway: the body parsers, the route table and
the catch-all `app.use('/', ...)`.  `targetPath` gives the path component of
each backend base address (`/` for an address such as
`http://localhost:3001`).  The first proxy middleware whose mount path matches
the path of the URL forwards the request; the rewrite rule is applied to the
original URL, query string included.  The result is `none` on a URL that is
not `plainUrl`, which the embedding does not describe. -/
def gateway (targetPath : Service → String) (parse : BodyParse) (url : String) :
    Option GatewayResult :=
  match parse with
  | .failed status => some (.parseError status)
  | .passed =>
    if plainUrl url.data then
      match routes.find? fun r => mountMatches r.mount.data (pathname url.data) with
      | some r =>
        some (.forward r.target (String.mk (outgoingPath (targetPath r.target).data
          (pathRewrite r.rewriteFrom.data r.rewriteTo.data url.data))))
      | none => some (.respond ⟨404, messageBody "Endpoint không tồn tại trên API Gateway"⟩)
    else none

/-- The `onError` callback of each proxy middleware. -/
def onError : Response := ⟨500, .str "Proxy error occurred"⟩

/-! ## Vocabulary of the statements -/

/-- The part of `updates` that `PUT /products/:id` builds from `name` and
`description`. -/
def productUpdatesBase (body : JSObj) : JSObj :=
  (if (getField body "name").truthy then [("name", getField body "name")] else []) ++
    (if !(getField body "description").isUndefined then
      [("description", getField body "description")] else [])

/-- The remainder of a URL after a route prefix starts at a boundary: it is
empty, or begins a deeper path segment (`/`) or the query string (`?`). -/
def atBoundary : List Char → Bool
  | [] => true
  | c :: _ => c = '/' || c = '?'

/-- The path is the prefix, or lies beneath it, letter case of the prefix
ignored: it splits into a case variant of the prefix and a remainder that is
empty or starts with `/`. -/
def AtOrBeneath (pfx : String) (path : List Char) : Prop :=
  ∃ a b, path = a ++ b ∧ a.map Char.toLower = pfx.data ∧ (b = [] ∨ ∃ t, b = '/' :: t)

/-- No two slashes stand in a row. -/
def noDoubleSlash : List Char → Bool
  | [] => true
  | c :: rest => !(decide (c = '/') && decide (rest.head? = some '/')) && noDoubleSlash rest

/-- The pattern occurs somewhere in the string. -/
def occurs (pat : List Char) : List Char → Bool
  | [] => false
  | c :: rest => pat.isPrefixOf (c :: rest) || occurs pat rest

/-- A URL whose path the proxy sends as it is: before the first `?` there is
no backslash, no two slashes in a row, and neither `http:/` nor `https:/`. -/
def cleanUrl (url : List Char) : Bool :=
  (pathname url).all (fun c => decide (c ≠ Char.ofNat 92)) && noDoubleSlash (pathname url) &&
    !occurs "http:/".data (pathname url) && !occurs "https:/".data (pathname url)

/-! ## Auxiliary facts -/

theorem getField_of_hasKey_false (o : JSObj) (k : String) (h : hasKey o k = false) :
    getField o k = .undefined := by
  induction o with
  | nil => rfl
  | cons kv rest ih =>
    obtain ⟨k2, v⟩ := kv
    by_cases hk : k2 = k
    · simp [hasKey, hk] at h
    · simp only [hasKey, hk, if_false] at h
      simp [getField, hk, ih h]

theorem geZero_of_valid (n : JSNum) (h₁ : n.isNaN = false) (h₂ : n.ltZero = false) :
    n.geZero = true := by
  cases n with
  | nan => simp [JSNum.isNaN] at h₁
  | posInf => rfl
  | negInf => simp [JSNum.ltZero] at h₂
  | negZero => rfl
  | fin q => simpa [JSNum.ltZero, JSNum.geZero] using h₂

theorem not_bad_iff (n : JSNum) :
    ¬ (n.isNaN || n.ltZero) = true ↔ n.isNaN = false ∧ n.ltZero = false := by
  cases h₁ : n.isNaN <;> cases h₂ : n.ltZero <;> simp

/-- A `POST /products` that reaches the store has passed every validation and
is the insert of the converted values. -/
theorem postProduct_accepted (body : JSObj) (store : Store)
    (hcalls : (postProduct body store).calls ≠ []) :
    ∃ p q, (getField body "name").truthy = true ∧
      toNumber (getField body "price") = some p ∧ p.isNaN = false ∧ p.ltZero = false ∧
      (((getField body "stock").isUndefined = true ∧ q = .fin 0) ∨
        ((getField body "stock").isUndefined = false ∧
          toNumber (getField body "stock") = some q ∧ q.isNaN = false ∧ q.ltZero = false)) ∧
      postProduct body store =
        postProductInsert (getField body "name") (getField body "description") p q store := by
  by_cases hv : (!(getField body "name").truthy || (getField body "price").isUndefined ||
      (getField body "price").isNull) = true
  · simp only [postProduct, hv, if_true, reject] at hcalls
    exact absurd rfl hcalls
  · have hname : (getField body "name").truthy = true := by
      cases hn : (getField body "name").truthy
      · simp [hn] at hv
      · rfl
    cases hp : toNumber (getField body "price") with
    | none =>
      simp only [postProduct, hv, if_false, hp] at hcalls
      exact absurd rfl hcalls
    | some p =>
      by_cases hpv : (p.isNaN || p.ltZero) = true
      · simp only [postProduct, hv, if_false, hp, hpv, if_true, reject] at hcalls
        exact absurd rfl hcalls
      · obtain ⟨hp1, hp2⟩ := (not_bad_iff p).1 hpv
        cases hs : (getField body "stock").isUndefined with
        | true =>
          refine ⟨p, .fin 0, hname, rfl, hp1, hp2, Or.inl ⟨rfl, rfl⟩, ?_⟩
          simp only [postProduct, hv, if_false, hp, hpv, hs]
          rfl
        | false =>
          cases hq : toNumber (getField body "stock") with
          | none =>
            simp only [postProduct, hv, if_false, hp, hpv, hs, hq] at hcalls
            exact absurd rfl hcalls
          | some q =>
            by_cases hqv : (q.isNaN || q.ltZero) = true
            · simp only [postProduct, hv, if_false, hp, hpv, hs, hq, hqv, if_true, reject]
                at hcalls
              exact absurd rfl hcalls
            · obtain ⟨hq1, hq2⟩ := (not_bad_iff q).1 hqv
              refine ⟨p, q, hname, rfl, hp1, hp2, Or.inr ⟨rfl, rfl, hq1, hq2⟩, ?_⟩
              simp only [postProduct, hv, if_false, hp, hpv, hs, hq, hqv]
              rfl

/-- A `POST /orders` that reaches the store has passed every validation and
is the insert of the converted amount. -/
theorem postOrder_accepted (body : JSObj) (store : Store)
    (hcalls : (postOrder body store).calls ≠ []) :
    ∃ t, (getField body "customer_id").truthy = true ∧
      toNumber (getField body "total_amount") = some t ∧ t.isNaN = false ∧ t.ltZero = false ∧
      postOrder body store =
        postOrderInsert (getField body "customer_id") t (getField body "status") store := by
  by_cases hv : (!(getField body "customer_id").truthy ||
      (getField body "total_amount").isUndefined || (getField body "total_amount").isNull) = true
  · simp only [postOrder, hv, if_true, reject] at hcalls
    exact absurd rfl hcalls
  · have hc : (getField body "customer_id").truthy = true := by
      cases hn : (getField body "customer_id").truthy
      · simp [hn] at hv
      · rfl
    cases ht : toNumber (getField body "total_amount") with
    | none =>
      simp only [postOrder, hv, if_false, ht] at hcalls
      exact absurd rfl hcalls
    | some t =>
      by_cases htv : (t.isNaN || t.ltZero) = true
      · simp only [postOrder, hv, if_false, ht, htv, if_true, reject] at hcalls
        exact absurd rfl hcalls
      · obtain ⟨h1, h2⟩ := (not_bad_iff t).1 htv
        refine ⟨t, hc, rfl, h1, h2, ?_⟩
        simp only [postOrder, hv, if_false, ht, htv]
        rfl

theorem hasKey_append (a b : JSObj) (k : String) :
    hasKey (a ++ b) k = (hasKey a k || hasKey b k) := by
  induction a with
  | nil => simp [hasKey]
  | cons kv rest ih =>
    obtain ⟨k2, v⟩ := kv
    by_cases hk : k2 = k <;> simp [hasKey, hk, ih]

/-- The `stock` block of `PUT /products/:id` either stops the request before
the store or extends `updates` with the converted stock. -/
theorem putProductStock_accepted (id : String) (u : JSObj) (stock : JSVal) (store : Store)
    (hcalls : (putProductStock id u stock store).calls ≠ []) :
    ∃ se, putProductStock id u stock store = putProductUpdate id (u ++ se) store ∧
      ((stock.isUndefined = true ∧ se = []) ∨
        (stock.isUndefined = false ∧ ∃ q, toNumber stock = some q ∧ q.isNaN = false ∧
          q.ltZero = false ∧ se = [("stock", .num q)])) := by
  cases hs : stock.isUndefined with
  | true =>
    refine ⟨[], ?_, Or.inl ⟨rfl, rfl⟩⟩
    simp [putProductStock, hs]
  | false =>
    cases hq : toNumber stock with
    | none =>
      simp only [putProductStock, hs, hq] at hcalls
      exact absurd rfl hcalls
    | some q =>
      by_cases hqv : (q.isNaN || q.ltZero) = true
      · simp only [putProductStock, hs, hq, hqv, if_true, reject] at hcalls
        exact absurd rfl hcalls
      · obtain ⟨h1, h2⟩ := (not_bad_iff q).1 hqv
        refine ⟨[("stock", .num q)], ?_, Or.inr ⟨rfl, q, rfl, h1, h2, rfl⟩⟩
        simp only [putProductStock, hs, hq, hqv]
        rfl

/-- A `PUT /products/:id` that reaches the store has passed every validation;
its `updates` is the base part followed by the converted `price` and `stock`
when these are present. -/
theorem putProduct_accepted (id : String) (body : JSObj) (store : Store)
    (hcalls : (putProduct id body store).calls ≠ []) :
    ∃ pe se, putProduct id body store =
        putProductUpdate id (productUpdatesBase body ++ pe ++ se) store ∧
      (((getField body "price").isUndefined = true ∧ pe = []) ∨
        ((getField body "price").isUndefined = false ∧ ∃ p,
          toNumber (getField body "price") = some p ∧ p.isNaN = false ∧
          p.ltZero = false ∧ pe = [("price", .num p)])) ∧
      (((getField body "stock").isUndefined = true ∧ se = []) ∨
        ((getField body "stock").isUndefined = false ∧ ∃ q,
          toNumber (getField body "stock") = some q ∧ q.isNaN = false ∧
          q.ltZero = false ∧ se = [("stock", .num q)])) := by
  have hbase : (if !(getField body "description").isUndefined then
        (if (getField body "name").truthy then
          ([] : JSObj) ++ [("name", getField body "name")] else []) ++
          [("description", getField body "description")]
      else (if (getField body "name").truthy then
          ([] : JSObj) ++ [("name", getField body "name")] else [])) =
      productUpdatesBase body := by
    unfold productUpdatesBase
    cases (getField body "name").truthy <;> cases (getField body "description").isUndefined <;>
      simp
  cases hs : (getField body "price").isUndefined with
  | true =>
    have heq : putProduct id body store =
        putProductStock id (productUpdatesBase body) (getField body "stock") store := by
      simp only [putProduct, hs, ← hbase]
      rfl
    rw [heq] at hcalls
    obtain ⟨se, h1, h2⟩ := putProductStock_accepted _ _ _ _ hcalls
    exact ⟨[], se, by rw [heq, h1, List.append_nil], Or.inl ⟨rfl, rfl⟩, h2⟩
  | false =>
    cases hp : toNumber (getField body "price") with
    | none =>
      simp only [putProduct, hs, hp] at hcalls
      exact absurd rfl hcalls
    | some p =>
      by_cases hpv : (p.isNaN || p.ltZero) = true
      · simp only [putProduct, hs, hp, hpv, if_true, reject] at hcalls
        exact absurd rfl hcalls
      · obtain ⟨hp1, hp2⟩ := (not_bad_iff p).1 hpv
        have heq : putProduct id body store =
            putProductStock id (productUpdatesBase body ++ [("price", .num p)])
              (getField body "stock") store := by
          simp only [putProduct, hs, hp, hpv, ← hbase]
          rfl
        rw [heq] at hcalls
        obtain ⟨se, h1, h2⟩ := putProductStock_accepted _ _ _ _ hcalls
        exact ⟨[("price", .num p)], se, by rw [heq, h1], Or.inr ⟨rfl, p, rfl, hp1, hp2, rfl⟩, h2⟩

/-! ## Update requests without a recognised field -/

/-- C1: a `PUT /customers/:id` whose body has none of `name`, `email`,
`address`, and a `PUT /products/:id` whose body has none of `name`,
`description`, `price`, `stock`, is answered 400 without any store call. -/
theorem put_without_recognized_fields (id : String) (body : JSObj) (store : Store) :
    (hasKey body "name" = false ∧ hasKey body "email" = false ∧
        hasKey body "address" = false →
      (putCustomer id body store).calls = [] ∧
        (putCustomer id body store).status = some 400) ∧
    (hasKey body "name" = false ∧ hasKey body "description" = false ∧
        hasKey body "price" = false ∧ hasKey body "stock" = false →
      (putProduct id body store).calls = [] ∧
        (putProduct id body store).status = some 400) := by
  constructor
  · rintro ⟨hn, he, ha⟩
    simp [putCustomer, customerUpdates, getField_of_hasKey_false _ _ hn,
      getField_of_hasKey_false _ _ he, getField_of_hasKey_false _ _ ha,
      JSVal.truthy, JSVal.isUndefined, reject, Run.status]
  · rintro ⟨hn, hd, hp, hs⟩
    simp [putProduct, putProductStock, putProductUpdate, getField_of_hasKey_false _ _ hn,
      getField_of_hasKey_false _ _ hd, getField_of_hasKey_false _ _ hp,
      getField_of_hasKey_false _ _ hs, JSVal.truthy, JSVal.isUndefined, reject, Run.status]

/-- Witness for C1: a body with only an unrecognised key `phone`. -/
theorem put_without_recognized_fields_witness :
    ((putCustomer "7" [("phone", .str "555")] fun _ => ⟨.null, none⟩).calls = [] ∧
      (putCustomer "7" [("phone", .str "555")] fun _ => ⟨.null, none⟩).status = some 400) ∧
    ((putProduct "7" [("phone", .str "555")] fun _ => ⟨.null, none⟩).calls = [] ∧
      (putProduct "7" [("phone", .str "555")] fun _ => ⟨.null, none⟩).status = some 400) :=
  ⟨(put_without_recognized_fields "7" [("phone", .str "555")] fun _ => ⟨.null, none⟩).1
      (by decide),
    (put_without_recognized_fields "7" [("phone", .str "555")] fun _ => ⟨.null, none⟩).2
      (by decide)⟩

/-! ## Validation of `POST /orders` -/

/-- C2, as stated, fails: a body whose `customer_id` is present with the value
`0` and whose `total_amount` is the non-negative number `10` is answered 400
without any insert. -/
theorem postOrder_present_customer_id_rejected :
    hasKey [("customer_id", .num (.fin 0)), ("total_amount", .num (.fin 10))] "customer_id"
        = true ∧
      toNumber (getField [("customer_id", .num (.fin 0)), ("total_amount", .num (.fin 10))]
        "total_amount") = some (.fin 10) ∧
      (JSNum.fin 10).geZero = true ∧
      (postOrder [("customer_id", .num (.fin 0)), ("total_amount", .num (.fin 10))]
        fun _ => ⟨.null, none⟩).calls = [] ∧
      (postOrder [("customer_id", .num (.fin 0)), ("total_amount", .num (.fin 10))]
        fun _ => ⟨.null, none⟩).status = some 400 := by
  refine ⟨by decide, by decide, by decide, ?_, ?_⟩ <;> rfl

/-- C2, amended: `POST /orders` answers 400 without a store call when
`customer_id` is missing or falsy, when `total_amount` is missing or `null`,
or when it converts to `NaN` or to a negative number; when `customer_id` is
truthy and `total_amount` is present, not `null` and converts to a
non-negative number, exactly one insert is issued, whose `total_amount` is the
converted number, which is `>= 0`. -/
theorem postOrder_validation (body : JSObj) (store : Store) :
    ((getField body "customer_id").truthy = false ∨
        (getField body "total_amount").isUndefined = true ∨
        (getField body "total_amount").isNull = true ∨
        (∃ n, toNumber (getField body "total_amount") = some n ∧
          (n.isNaN = true ∨ n.ltZero = true)) →
      (postOrder body store).calls = [] ∧ (postOrder body store).status = some 400) ∧
    (∀ n, (getField body "customer_id").truthy = true →
        (getField body "total_amount").isUndefined = false →
        (getField body "total_amount").isNull = false →
        toNumber (getField body "total_amount") = some n →
        n.isNaN = false → n.ltZero = false →
      ∃ row, (postOrder body store).calls = [[.from_ "orders", .insert row, .select, .single]] ∧
        getField row "total_amount" = .num n ∧ n.geZero = true) := by
  constructor
  · intro h
    by_cases hg : (!(getField body "customer_id").truthy ||
        (getField body "total_amount").isUndefined ||
        (getField body "total_amount").isNull) = true
    · simp only [postOrder, hg, if_true]
      exact ⟨rfl, rfl⟩
    · have hn : ∃ n, toNumber (getField body "total_amount") = some n ∧
          (n.isNaN = true ∨ n.ltZero = true) := by
        rcases h with h | h | h | h
        · simp [h] at hg
        · simp [h] at hg
        · simp [h] at hg
        · exact h
      obtain ⟨n, hn, hbad⟩ := hn
      have hbad2 : (n.isNaN || n.ltZero) = true := by
        rcases hbad with hb | hb <;> simp [hb]
      simp only [postOrder, hg, if_false, hn, hbad2, if_true]
      exact ⟨rfl, rfl⟩
  · intro n hc hu hnull hn hnan hneg
    refine ⟨[("customer_id", getField body "customer_id"), ("total_amount", .num n),
      ("status", if (getField body "status").truthy then getField body "status"
        else .str "pending")], ?_, ?_, geZero_of_valid n hnan hneg⟩
    · simp only [postOrder, postOrderInsert, hc, hu, hnull, hn, hnan, hneg]
      rfl
    · simp [getField]

/-- Witness for C2 (amended): the scenario body
`{customer_id: "c1", total_amount: -5}` is refused, and the same body with
`total_amount: 5` is inserted. -/
theorem postOrder_validation_witness :
    ((postOrder [("customer_id", .str "c1"), ("total_amount", .num (.fin (-5)))]
        fun _ => ⟨.null, none⟩).calls = [] ∧
      (postOrder [("customer_id", .str "c1"), ("total_amount", .num (.fin (-5)))]
        fun _ => ⟨.null, none⟩).status = some 400) ∧
    (∃ row, (postOrder [("customer_id", .str "c1"), ("total_amount", .num (.fin 5))]
        fun _ => ⟨.null, none⟩).calls = [[.from_ "orders", .insert row, .select, .single]] ∧
      getField row "total_amount" = .num (.fin 5) ∧ (JSNum.fin 5).geZero = true) :=
  ⟨(postOrder_validation [("customer_id", .str "c1"), ("total_amount", .num (.fin (-5)))]
      fun _ => ⟨.null, none⟩).1
      (Or.inr (Or.inr (Or.inr ⟨.fin (-5), by decide, Or.inr (by decide)⟩))),
    (postOrder_validation [("customer_id", .str "c1"), ("total_amount", .num (.fin 5))]
      fun _ => ⟨.null, none⟩).2 (.fin 5)
      (by decide) (by decide) (by decide) (by decide) (by decide) (by decide)⟩

/-! ## Point lookups of an id that does not exist -/

/-- C3: in each get-by-id handler, the response when the store reports the
no-row error `PGRST116` and the response when it reports no error and an
absent record are the same: status 404 with the handler's not-found body. -/
theorem getById_notFound_indistinguishable (id : String) (s₁ s₂ : Store)
    (h₁ : ∀ q, ∃ e, (s₁ q).error = some e ∧ e.code = some "PGRST116")
    (h₂ : ∀ q, (s₂ q).error = none ∧ (s₂ q).data.truthy = false) :
    ((getCustomerById id s₁).outcome = (getCustomerById id s₂).outcome ∧
      (getCustomerById id s₂).outcome =
        .respond ⟨404, messageBody "Không tìm thấy khách hàng"⟩) ∧
    ((getProductById id s₁).outcome = (getProductById id s₂).outcome ∧
      (getProductById id s₂).outcome =
        .respond ⟨404, messageBody "Không tìm thấy sản phẩm"⟩) ∧
    ((getOrderById id s₁).outcome = (getOrderById id s₂).outcome ∧
      (getOrderById id s₂).outcome =
        .respond ⟨404, messageBody "Không tìm thấy đơn hàng"⟩) := by
  refine ⟨?_, ?_, ?_⟩
  · obtain ⟨e, he, hc⟩ := h₁ [.from_ "customers", .selectAll, .eq "id" (.str id), .single]
    obtain ⟨hn, hd⟩ := h₂ [.from_ "customers", .selectAll, .eq "id" (.str id), .single]
    simp [getCustomerById, he, hc, hn, hd]
  · obtain ⟨e, he, hc⟩ := h₁ [.from_ "products", .selectAll, .eq "id" (.str id), .single]
    obtain ⟨hn, hd⟩ := h₂ [.from_ "products", .selectAll, .eq "id" (.str id), .single]
    simp [getProductById, he, hc, hn, hd]
  · obtain ⟨e, he, hc⟩ := h₁ [.from_ "orders", .selectAll, .eq "id" (.str id), .single]
    obtain ⟨hn, hd⟩ := h₂ [.from_ "orders", .selectAll, .eq "id" (.str id), .single]
    simp [getOrderById, he, hc, hn, hd]

/-- Witness for C3: a store answering `PGRST116` and a store answering
`{ data: null, error: null }`. -/
theorem getById_notFound_indistinguishable_witness :
    (getCustomerById "42" fun _ => ⟨.null, some ⟨some "PGRST116", some "no rows"⟩⟩).outcome =
      (getCustomerById "42" fun _ => ⟨.null, none⟩).outcome :=
  (getById_notFound_indistinguishable "42"
    (fun _ => ⟨.null, some ⟨some "PGRST116", some "no rows"⟩⟩) (fun _ => ⟨.null, none⟩)
    (fun _ => ⟨_, rfl, rfl⟩) (fun _ => ⟨rfl, rfl⟩)).1.1

/-! ## Unique-constraint violations -/

/-- C4, as stated, fails: `POST /products` with a valid body, answered by the
adapter with the unique-violation code `23505`, responds 500. -/
theorem postProduct_unique_violation_is_500 :
    (postProduct [("name", .str "pen"), ("price", .num (.fin 2))]
        fun _ => ⟨.null, some ⟨some "23505", some "duplicate key value"⟩⟩).calls ≠ [] ∧
      (postProduct [("name", .str "pen"), ("price", .num (.fin 2))]
        fun _ => ⟨.null, some ⟨some "23505", some "duplicate key value"⟩⟩).status
        = some 500 := by
  exact ⟨List.ne_nil_of_length_pos (by decide), by decide⟩

/-- C4, amended: when the adapter reports code `23505`, the Customer service
responds 409 on a create, and on a full update whose error message is a string
without `exactly one row` (the test the handler makes first); the Product
service (create and, under the same condition, update) and the Order service
(create) have no case for that code and respond 500. -/
theorem unique_violation_status (store : Store) (e : StoreError)
    (h : ∀ q, (store q).error = some e) (hc : e.code = some "23505") :
    (∀ body, (postCustomer body store).calls ≠ [] →
      (postCustomer body store).status = some 409) ∧
    (∀ id body m, (putCustomer id body store).calls ≠ [] → e.message = some m →
      includes m "exactly one row" = false →
      (putCustomer id body store).status = some 409) ∧
    (∀ body, (postProduct body store).calls ≠ [] →
      (postProduct body store).status = some 500) ∧
    (∀ id body m, (putProduct id body store).calls ≠ [] → e.message = some m →
      includes m "exactly one row" = false →
      (putProduct id body store).status = some 500) ∧
    (∀ body, (postOrder body store).calls ≠ [] →
      (postOrder body store).status = some 500) := by
  have hne : e.code ≠ some "PGRST116" := by rw [hc]; decide
  refine ⟨?_, ?_, ?_, ?_, ?_⟩
  · intro body hcalls
    unfold postCustomer at hcalls ⊢
    simp only [] at hcalls ⊢
    split at hcalls
    · exact absurd rfl hcalls
    · rename_i hv
      simp [hv, h, hc, Run.status]
  · intro id body m hcalls hm hinc
    by_cases hv : (customerUpdates body).length = 0
    · simp only [putCustomer, hv, if_true, reject] at hcalls
      exact absurd rfl hcalls
    · simp [putCustomer, hv, h, hc, hne, Run.status, messageIncludes, hm, hinc]
  · intro body hcalls
    obtain ⟨p, q, _, _, _, _, _, heq⟩ := postProduct_accepted body store hcalls
    rw [heq]
    simp [postProductInsert, h, Run.status]
  · intro id body m hcalls hm hinc
    obtain ⟨pe, se, heq, _, _⟩ := putProduct_accepted id body store hcalls
    rw [heq] at hcalls ⊢
    generalize productUpdatesBase body ++ pe ++ se = u at hcalls ⊢
    by_cases hv : u.length = 0
    · simp only [putProductUpdate, hv, if_true, reject] at hcalls
      exact absurd rfl hcalls
    · simp [putProductUpdate, hv, h, hne, Run.status, messageIncludes, hm, hinc]
  · intro body hcalls
    obtain ⟨t, _, _, _, _, heq⟩ := postOrder_accepted body store hcalls
    rw [heq]
    simp [postOrderInsert, h, Run.status]

/-- Witness for C4 (amended): a store that answers every call with a `23505`
error; a valid `POST /customers` is answered 409. -/
theorem unique_violation_status_witness :
    (postCustomer [("name", .str "Ann"), ("email", .str "ann@x.com")]
      fun _ => ⟨.null, some ⟨some "23505", some "duplicate key value"⟩⟩).status = some 409 :=
  (unique_violation_status (fun _ => ⟨.null, some ⟨some "23505", some "duplicate key value"⟩⟩)
    ⟨some "23505", some "duplicate key value"⟩ (fun _ => rfl) rfl).1
    [("name", .str "Ann"), ("email", .str "ann@x.com")]
    (List.ne_nil_of_length_pos (by decide))

/-! ## Deleting an id that does not exist -/

/-- C5 at the failing input: when the delete chain, which ends in `.single()`,
is answered with the no-row error `PGRST116`, `DELETE /customers/:id` and
`DELETE /products/:id` respond 500, not 404. -/
theorem delete_noRow_error_is_500 :
    (deleteCustomer "42" fun _ => ⟨.null, some ⟨some "PGRST116",
        some "JSON object requested, multiple (or no) rows returned"⟩⟩).status = some 500 ∧
      (deleteProduct "42" fun _ => ⟨.null, some ⟨some "PGRST116",
        some "JSON object requested, multiple (or no) rows returned"⟩⟩).status = some 500 :=
  ⟨rfl, rfl⟩

/-! ## Updates of an id that does not exist -/

/-- C6: an update request that passes validation (`PUT /customers/:id`,
`PUT /products/:id`, `PATCH /orders/:id/status`) is answered 404 when the
store reports `PGRST116` and when it reports no error and no record, and is
answered 200 with the record when the store returns one without error. -/
theorem update_notFound_and_success (id : String) (body : JSObj) (store : Store) :
    ((putCustomer id body store).calls ≠ [] →
      ((∀ q, ∃ e, (store q).error = some e ∧ e.code = some "PGRST116") →
        (putCustomer id body store).status = some 404) ∧
      ((∀ q, (store q).error = none ∧ (store q).data.truthy = false) →
        (putCustomer id body store).status = some 404) ∧
      (∀ d, (∀ q, (store q).error = none ∧ (store q).data = d) → d.truthy = true →
        (putCustomer id body store).outcome = .respond ⟨200, d⟩)) ∧
    ((putProduct id body store).calls ≠ [] →
      ((∀ q, ∃ e, (store q).error = some e ∧ e.code = some "PGRST116") →
        (putProduct id body store).status = some 404) ∧
      ((∀ q, (store q).error = none ∧ (store q).data.truthy = false) →
        (putProduct id body store).status = some 404) ∧
      (∀ d, (∀ q, (store q).error = none ∧ (store q).data = d) → d.truthy = true →
        (putProduct id body store).outcome = .respond ⟨200, d⟩)) ∧
    ((patchOrderStatus id body store).calls ≠ [] →
      ((∀ q, ∃ e, (store q).error = some e ∧ e.code = some "PGRST116") →
        (patchOrderStatus id body store).status = some 404) ∧
      ((∀ q, (store q).error = none ∧ (store q).data.truthy = false) →
        (patchOrderStatus id body store).status = some 404) ∧
      (∀ d, (∀ q, (store q).error = none ∧ (store q).data = d) → d.truthy = true →
        (patchOrderStatus id body store).outcome = .respond ⟨200, d⟩)) := by
  refine ⟨?_, ?_, ?_⟩
  · intro hcalls
    by_cases hv : (customerUpdates body).length = 0
    · simp only [putCustomer, hv, if_true, reject] at hcalls
      exact absurd rfl hcalls
    · refine ⟨?_, ?_, ?_⟩
      · intro h
        obtain ⟨e, he, hc⟩ := h [.from_ "customers", .update (customerUpdates body),
          .eq "id" (.str id), .select, .single]
        simp [putCustomer, hv, he, hc, Run.status]
      · intro h
        obtain ⟨he, hd⟩ := h [.from_ "customers", .update (customerUpdates body),
          .eq "id" (.str id), .select, .single]
        simp [putCustomer, hv, he, hd, Run.status]
      · intro d h hd
        obtain ⟨he, hdd⟩ := h [.from_ "customers", .update (customerUpdates body),
          .eq "id" (.str id), .select, .single]
        simp [putCustomer, hv, he, hdd, hd]
  · intro hcalls
    obtain ⟨pe, se, heq, _, _⟩ := putProduct_accepted id body store hcalls
    rw [heq] at hcalls ⊢
    generalize productUpdatesBase body ++ pe ++ se = u at hcalls ⊢
    by_cases hv : u.length = 0
    · simp only [putProductUpdate, hv, if_true, reject] at hcalls
      exact absurd rfl hcalls
    · refine ⟨?_, ?_, ?_⟩
      · intro h
        obtain ⟨e, he, hc⟩ := h [.from_ "products", .update u, .eq "id" (.str id), .select,
          .single]
        simp [putProductUpdate, hv, he, hc, Run.status]
      · intro h
        obtain ⟨he, hd⟩ := h [.from_ "products", .update u, .eq "id" (.str id), .select,
          .single]
        simp [putProductUpdate, hv, he, hd, Run.status]
      · intro d h hd
        obtain ⟨he, hdd⟩ := h [.from_ "products", .update u, .eq "id" (.str id), .select,
          .single]
        simp [putProductUpdate, hv, he, hdd, hd]
  · intro hcalls
    by_cases hv : (!(getField body "status").truthy) = true
    · simp only [patchOrderStatus, hv, if_true, reject] at hcalls
      exact absurd rfl hcalls
    · refine ⟨?_, ?_, ?_⟩
      · intro h
        obtain ⟨e, he, hc⟩ := h [.from_ "orders", .update [("status", getField body "status")],
          .eq "id" (.str id), .select, .single]
        simp [patchOrderStatus, hv, he, hc, Run.status]
      · intro h
        obtain ⟨he, hd⟩ := h [.from_ "orders", .update [("status", getField body "status")],
          .eq "id" (.str id), .select, .single]
        simp [patchOrderStatus, hv, he, hd, Run.status]
      · intro d h hd
        obtain ⟨he, hdd⟩ := h [.from_ "orders", .update [("status", getField body "status")],
          .eq "id" (.str id), .select, .single]
        simp [patchOrderStatus, hv, he, hdd, hd]

/-- Witness for C6: the scenario `PATCH /orders/o1/status` with
`{status: "shipped"}` on a store answering `PGRST116` is answered 404, and a
`PUT /customers/c1` on a store returning a record is answered 200 with it. -/
theorem update_notFound_and_success_witness :
    (patchOrderStatus "o1" [("status", .str "shipped")]
        fun _ => ⟨.null, some ⟨some "PGRST116", some "no rows"⟩⟩).status = some 404 ∧
      (putCustomer "c1" [("name", .str "Ann")]
        fun _ => ⟨.obj [("id", .str "c1"), ("name", .str "Ann")], none⟩).outcome =
        .respond ⟨200, .obj [("id", .str "c1"), ("name", .str "Ann")]⟩ :=
  ⟨((update_notFound_and_success "o1" [("status", .str "shipped")]
      fun _ => ⟨.null, some ⟨some "PGRST116", some "no rows"⟩⟩).2.2
      (List.ne_nil_of_length_pos (by decide))).1 fun _ => ⟨_, rfl, rfl⟩,
    ((update_notFound_and_success "c1" [("name", .str "Ann")]
      fun _ => ⟨.obj [("id", .str "c1"), ("name", .str "Ann")], none⟩).1
      (List.ne_nil_of_length_pos (by decide))).2.2 _ (fun _ => ⟨rfl, rfl⟩) rfl⟩

/-! ## The keys of an update payload -/

/-- C7, as stated, fails: in `PUT /customers/:id` with the body
`{name: "", address: "x"}` the field `name` is present in the body, the
request reaches the store, and `name` is not a key of the update payload. -/
theorem putCustomer_empty_name_not_in_payload :
    hasKey [("name", .str ""), ("address", .str "x")] "name" = true ∧
      (putCustomer "c1" [("name", .str ""), ("address", .str "x")]
        fun _ => ⟨.null, none⟩).calls =
        [[.from_ "customers", .update [("address", .str "x")], .eq "id" (.str "c1"), .select,
          .single]] ∧
      hasKey [("address", JSVal.str "x")] "name" = false :=
  ⟨by decide, rfl, by decide⟩

/-- C7, amended: when `PUT /customers/:id` or `PUT /products/:id` reaches the
store, `name` and `email` are keys of the update payload exactly when the body
gives them a truthy value, and `address`, `description`, `price` and `stock`
are keys exactly when they are present in the body (also with a `null` or
empty value); a field absent from the body is never a key. -/
theorem put_payload_keys (id : String) (body : JSObj) (store : Store) :
    (∀ u, (putCustomer id body store).calls =
        [[.from_ "customers", .update u, .eq "id" (.str id), .select, .single]] →
      (hasKey u "name" = true ↔ (getField body "name").truthy = true) ∧
      (hasKey u "email" = true ↔ (getField body "email").truthy = true) ∧
      (hasKey u "address" = true ↔ (getField body "address").isUndefined = false)) ∧
    (∀ u, (putProduct id body store).calls =
        [[.from_ "products", .update u, .eq "id" (.str id), .select, .single]] →
      (hasKey u "name" = true ↔ (getField body "name").truthy = true) ∧
      (hasKey u "description" = true ↔ (getField body "description").isUndefined = false) ∧
      (hasKey u "price" = true ↔ (getField body "price").isUndefined = false) ∧
      (hasKey u "stock" = true ↔ (getField body "stock").isUndefined = false)) := by
  constructor
  · intro u hu
    by_cases hv : (customerUpdates body).length = 0
    · simp [putCustomer, hv, reject] at hu
    · simp only [putCustomer, hv, if_false] at hu
      have hu2 : customerUpdates body = u := by
        simpa using hu
      subst hu2
      cases h1 : (getField body "name").truthy <;>
        cases h2 : (getField body "email").truthy <;>
        cases h3 : (getField body "address").isUndefined <;>
        simp [customerUpdates, hasKey, h1, h2, h3]
  · intro u hu
    have hcalls : (putProduct id body store).calls ≠ [] := by
      rw [hu]; exact List.cons_ne_nil _ _
    obtain ⟨pe, se, heq, hpe, hse⟩ := putProduct_accepted id body store hcalls
    rw [heq] at hu
    generalize hw : productUpdatesBase body ++ pe ++ se = w at hu
    by_cases hv : w.length = 0
    · simp [putProductUpdate, hv, reject] at hu
    · simp only [putProductUpdate, hv, if_false] at hu
      have hu2 : w = u := by
        simpa using hu
      rw [← hu2, ← hw]
      rcases hpe with ⟨hp, rfl⟩ | ⟨hp, p, _, _, _, rfl⟩ <;>
        rcases hse with ⟨hs, rfl⟩ | ⟨hs, q, _, _, _, rfl⟩ <;>
        cases h1 : (getField body "name").truthy <;>
        cases h2 : (getField body "description").isUndefined <;>
        simp [productUpdatesBase, hasKey, hasKey_append, hp, hs, h1, h2]

/-- Witness for C7 (amended): `PUT /customers/c1` with
`{name: "", address: null}` sends the payload `{address: null}`. -/
theorem put_payload_keys_witness :
    (hasKey [("address", JSVal.null)] "name" = true ↔
        (getField [("name", .str ""), ("address", .null)] "name").truthy = true) ∧
      (hasKey [("address", JSVal.null)] "email" = true ↔
        (getField [("name", .str ""), ("address", .null)] "email").truthy = true) ∧
      (hasKey [("address", JSVal.null)] "address" = true ↔
        (getField [("name", .str ""), ("address", .null)] "address").isUndefined = false) :=
  (put_payload_keys "c1" [("name", .str ""), ("address", .null)] fun _ => ⟨.null, none⟩).1
    [("address", .null)] rfl

/-! ## Defaults written by the create handlers -/

/-- C8: an accepted `POST /products` issues one insert whose row has
`stock = 0` when the body has no `stock`, and `stock = Number(stock)`, a
non-negative number, when it has one; an accepted `POST /orders` issues one
insert whose row has `status = "pending"` when the body has no `status`, and
the supplied status unchanged when it is a non-empty (truthy) value. -/
theorem create_defaults (body : JSObj) (store : Store) :
    ((postProduct body store).calls ≠ [] →
      ∃ row, (postProduct body store).calls =
          [[.from_ "products", .insert row, .select, .single]] ∧
        hasKey row "stock" = true ∧
        ((getField body "stock").isUndefined = true → getField row "stock" = .num (.fin 0)) ∧
        ((getField body "stock").isUndefined = false →
          ∃ n, toNumber (getField body "stock") = some n ∧ n.geZero = true ∧
            getField row "stock" = .num n)) ∧
    ((postOrder body store).calls ≠ [] →
      ∃ row, (postOrder body store).calls =
          [[.from_ "orders", .insert row, .select, .single]] ∧
        hasKey row "status" = true ∧
        ((getField body "status").isUndefined = true →
          getField row "status" = .str "pending") ∧
        ((getField body "status").truthy = true →
          getField row "status" = getField body "status")) := by
  constructor
  · intro hcalls
    obtain ⟨p, q, _, _, _, _, hq, heq⟩ := postProduct_accepted body store hcalls
    refine ⟨[("name", getField body "name"), ("description", getField body "description"),
      ("price", .num p), ("stock", .num q)], ?_, by simp [hasKey], ?_, ?_⟩
    · rw [heq]; rfl
    · intro hs
      rcases hq with ⟨_, rfl⟩ | ⟨hs2, _⟩
      · simp [getField]
      · rw [hs] at hs2; cases hs2
    · intro hs
      rcases hq with ⟨hs2, _⟩ | ⟨_, hn, h1, h2⟩
      · rw [hs] at hs2; cases hs2
      · exact ⟨q, hn, geZero_of_valid q h1 h2, by simp [getField]⟩
  · intro hcalls
    obtain ⟨t, _, _, _, _, heq⟩ := postOrder_accepted body store hcalls
    refine ⟨[("customer_id", getField body "customer_id"), ("total_amount", .num t),
      ("status", if (getField body "status").truthy then getField body "status"
        else .str "pending")], ?_, by simp [hasKey], ?_, ?_⟩
    · rw [heq]; rfl
    · intro hs
      have ht : (getField body "status").truthy = false := by
        cases hb : getField body "status" <;> simp_all [JSVal.isUndefined, JSVal.truthy]
      simp [getField, ht]
    · intro hs
      simp [getField, hs]

/-- Witness for C8: `POST /products` without `stock` inserts `stock = 0` and
with `stock: "7"` inserts `stock = 7`; `POST /orders` without `status` inserts
`status = "pending"` and with `status: "paid"` inserts `status = "paid"`. -/
theorem create_defaults_witness :
    (∃ row, (postProduct [("name", .str "pen"), ("price", .str "2")]
        fun _ => ⟨.null, none⟩).calls = [[.from_ "products", .insert row, .select, .single]] ∧
      getField row "stock" = .num (.fin 0)) ∧
    (∃ row, (postProduct [("name", .str "pen"), ("price", .num (.fin 2)), ("stock", .str "7")]
        fun _ => ⟨.null, none⟩).calls = [[.from_ "products", .insert row, .select, .single]] ∧
      getField row "stock" = .num (.fin 7)) ∧
    (∃ row, (postOrder [("customer_id", .str "c1"), ("total_amount", .num (.fin 5))]
        fun _ => ⟨.null, none⟩).calls = [[.from_ "orders", .insert row, .select, .single]] ∧
      getField row "status" = .str "pending") ∧
    (∃ row, (postOrder [("customer_id", .str "c1"), ("total_amount", .num (.fin 5)),
        ("status", .str "paid")]
        fun _ => ⟨.null, none⟩).calls = [[.from_ "orders", .insert row, .select, .single]] ∧
      getField row "status" = .str "paid") := by
  refine ⟨?_, ?_, ?_, ?_⟩
  · obtain ⟨row, h1, _, h3, _⟩ :=
      (create_defaults [("name", .str "pen"), ("price", .str "2")]
        fun _ => ⟨.null, none⟩).1 (List.ne_nil_of_length_pos (by decide))
    exact ⟨row, h1, h3 (by decide)⟩
  · obtain ⟨row, h1, _, _, h4⟩ :=
      (create_defaults [("name", .str "pen"), ("price", .num (.fin 2)), ("stock", .str "7")]
        fun _ => ⟨.null, none⟩).1 (List.ne_nil_of_length_pos (by decide))
    obtain ⟨n, hn, _, hr⟩ := h4 (by decide)
    have h7 : toNumber (getField [("name", .str "pen"), ("price", .num (.fin 2)),
        ("stock", .str "7")] "stock") = some (.fin 7) := by decide
    rw [h7] at hn
    cases hn
    exact ⟨row, h1, hr⟩
  · obtain ⟨row, h1, _, h3, _⟩ :=
      (create_defaults [("customer_id", .str "c1"), ("total_amount", .num (.fin 5))]
        fun _ => ⟨.null, none⟩).2 (List.ne_nil_of_length_pos (by decide))
    exact ⟨row, h1, h3 (by decide)⟩
  · obtain ⟨row, h1, _, _, h4⟩ :=
      (create_defaults [("customer_id", .str "c1"), ("total_amount", .num (.fin 5)),
        ("status", .str "paid")]
        fun _ => ⟨.null, none⟩).2 (List.ne_nil_of_length_pos (by decide))
    exact ⟨row, h1, h4 (by decide)⟩

/-! ## Conversions at the limits of the doubles -/

/-- The conversion of a string to a number rounds to the nearest double: a
negative literal below the least subnormal gives `-0`, a literal beyond the
greatest double gives `Infinity`, and an integer between two doubles goes to
the even one. -/
theorem stringToNumber_rounds :
    stringToNumber "-1e-400" = .negZero ∧ stringToNumber "1e400" = .posInf ∧
      stringToNumber "9007199254740993" = .fin 9007199254740992 ∧
      stringToNumber "0.1" = .fin (mkRat 3602879701896397 36028797018963968) := by
  decide!

/-- The amount `"-1e-400"` converts to `-0`, which is not below zero: `POST
/orders` inserts it; the stock `"1e400"` converts to `Infinity`: `POST
/products` inserts it. -/
theorem extreme_amounts_are_inserted :
    ((postOrder [("customer_id", .str "c1"), ("total_amount", .str "-1e-400")]
          fun _ => ⟨.obj [], none⟩).status = some 201 ∧
        (postOrder [("customer_id", .str "c1"), ("total_amount", .str "-1e-400")]
          fun _ => ⟨.obj [], none⟩).calls.length = 1) ∧
      ((postProduct [("name", .str "pen"), ("price", .num (.fin 2)), ("stock", .str "1e400")]
          fun _ => ⟨.obj [], none⟩).status = some 201 ∧
        toNumber (.str "1e400") = some .posInf) := by
  decide!

/-! ## Gateway: path rewriting -/

theorem stripPrefixCI_append_self (pat s : List Char) :
    stripPrefixCI pat (pat ++ s) = some s := by
  induction pat with
  | nil => rfl
  | cons p ps ih => simp [stripPrefixCI, ih]

theorem stripPrefixCI_eq_some_iff (pat s r : List Char) :
    stripPrefixCI pat s = some r ↔
      ∃ a, s = a ++ r ∧ a.map Char.toLower = pat.map Char.toLower := by
  induction pat generalizing s with
  | nil =>
    constructor
    · intro h
      simp only [stripPrefixCI, Option.some.injEq] at h
      exact ⟨[], by simp [h], rfl⟩
    · rintro ⟨a, ha, hm⟩
      have : a = [] := by simpa using hm
      subst this
      simp [stripPrefixCI, ha]
  | cons p ps ih =>
    cases s with
    | nil =>
      constructor
      · intro h
        simp [stripPrefixCI] at h
      · rintro ⟨a, ha, hm⟩
        cases a with
        | nil => simp at hm
        | cons a0 a1 => simp at ha
    | cons c cs =>
      by_cases hc : c.toLower = p.toLower
      · simp only [stripPrefixCI, hc, if_true, ih]
        constructor
        · rintro ⟨a, ha, hm⟩
          exact ⟨c :: a, by simp [ha], by simp [hc, hm]⟩
        · rintro ⟨a, ha, hm⟩
          cases a with
          | nil => simp at hm
          | cons a0 a1 =>
            simp only [List.cons_append, List.cons.injEq] at ha
            simp only [List.map_cons, List.cons.injEq] at hm
            exact ⟨a1, ha.2, hm.2⟩
      · simp only [stripPrefixCI, hc, if_false]
        constructor
        · intro h
          cases h
        · rintro ⟨a, ha, hm⟩
          cases a with
          | nil => simp at hm
          | cons a0 a1 =>
            simp only [List.cons_append, List.cons.injEq] at ha
            simp only [List.map_cons, List.cons.injEq] at hm
            exact absurd (ha.1 ▸ hm.1) hc

theorem pathname_append (a b : List Char) (h : ∀ c ∈ a, c ≠ '?') :
    pathname (a ++ b) = a ++ pathname b := by
  induction a with
  | nil => rfl
  | cons x xs ih =>
    have hx : x ≠ '?' := h x (List.mem_cons_self _ _)
    have hxs : ∀ c ∈ xs, c ≠ '?' := fun c hc => h c (List.mem_cons_of_mem _ hc)
    have := ih hxs
    simp only [pathname] at this ⊢
    rw [List.cons_append, List.takeWhile_cons, this]
    simp [hx]

theorem mountMatches_append_self (pat x : List Char) :
    mountMatches pat (pat ++ x) = (match x with | [] => true | c :: _ => decide (c = '/')) := by
  unfold mountMatches
  rw [stripPrefixCI_append_self]
  cases x <;> rfl

theorem mountMatches_pathname_of_atBoundary (pat rest : List Char) :
    mountMatches pat (pat ++ pathname rest) = atBoundary rest := by
  rw [mountMatches_append_self]
  cases rest with
  | nil => rfl
  | cons c t =>
    by_cases hq : c = '?'
    · subst hq
      rfl
    · by_cases hs : c = '/'
      · subst hs
        rfl
      · simp [pathname, List.takeWhile, hq, hs, atBoundary]

theorem customers_data :
    ("/api/customers" : String).data =
      ['/', 'a', 'p', 'i', '/', 'c', 'u', 's', 't', 'o', 'm', 'e', 'r', 's'] := rfl

theorem products_data :
    ("/api/products" : String).data =
      ['/', 'a', 'p', 'i', '/', 'p', 'r', 'o', 'd', 'u', 'c', 't', 's'] := rfl

theorem orders_data :
    ("/api/orders" : String).data = ['/', 'a', 'p', 'i', '/', 'o', 'r', 'd', 'e', 'r', 's'] := rfl

theorem plainUrl_append (pfx cs : List Char) (h₁ : plainUrl pfx = true)
    (h₂ : cs.all plainChar = true) : plainUrl (pfx ++ cs) = true := by
  cases pfx with
  | nil => simp [plainUrl] at h₁
  | cons c t =>
    simp only [plainUrl, List.head?_cons, List.all_cons, Bool.and_eq_true, List.cons_append,
      List.all_append] at h₁ ⊢
    exact ⟨h₁.1, h₁.2.1, h₁.2.2, h₂⟩

theorem gateway_under_customers (tp : Service → String) (cs : List Char)
    (hp : cs.all plainChar = true) :
    gateway tp .passed ⟨"/api/customers".data ++ cs⟩ =
      if atBoundary cs then
        some (.forward .customer
          ⟨outgoingPath (tp .customer).data ("/customers".data ++ cs)⟩)
      else some (.respond ⟨404, messageBody "Endpoint không tồn tại trên API Gateway"⟩) := by
  have h0 : plainUrl ("/api/customers".data ++ cs) = true :=
    plainUrl_append _ _ (by decide) hp
  have h1 : mountMatches "/api/customers".data (pathname ("/api/customers".data ++ cs)) =
      atBoundary cs := by
    rw [pathname_append _ _ (by decide), mountMatches_pathname_of_atBoundary]
  have h2 : mountMatches "/api/products".data (pathname ("/api/customers".data ++ cs)) =
      false := by
    rw [pathname_append _ _ (by decide)]
    simp +decide [customers_data, products_data, mountMatches, stripPrefixCI]
  have h3 : mountMatches "/api/orders".data (pathname ("/api/customers".data ++ cs)) =
      false := by
    rw [pathname_append _ _ (by decide)]
    simp +decide [customers_data, orders_data, mountMatches, stripPrefixCI]
  simp only [gateway, h0, if_true, routes, List.find?, h1, h2, h3]
  cases atBoundary cs
  · rfl
  · simp [pathRewrite, customers_data]

theorem gateway_under_products (tp : Service → String) (cs : List Char)
    (hp : cs.all plainChar = true) :
    gateway tp .passed ⟨"/api/products".data ++ cs⟩ =
      if atBoundary cs then
        some (.forward .product ⟨outgoingPath (tp .product).data ("/products".data ++ cs)⟩)
      else some (.respond ⟨404, messageBody "Endpoint không tồn tại trên API Gateway"⟩) := by
  have h0 : plainUrl ("/api/products".data ++ cs) = true :=
    plainUrl_append _ _ (by decide) hp
  have h1 : mountMatches "/api/customers".data (pathname ("/api/products".data ++ cs)) =
      false := by
    rw [pathname_append _ _ (by decide)]
    simp +decide [customers_data, products_data, mountMatches, stripPrefixCI]
  have h2 : mountMatches "/api/products".data (pathname ("/api/products".data ++ cs)) =
      atBoundary cs := by
    rw [pathname_append _ _ (by decide), mountMatches_pathname_of_atBoundary]
  have h3 : mountMatches "/api/orders".data (pathname ("/api/products".data ++ cs)) =
      false := by
    rw [pathname_append _ _ (by decide)]
    simp +decide [products_data, orders_data, mountMatches, stripPrefixCI]
  simp only [gateway, h0, if_true, routes, List.find?, h1, h2, h3]
  cases atBoundary cs
  · rfl
  · simp [pathRewrite, products_data]

theorem gateway_under_orders (tp : Service → String) (cs : List Char)
    (hp : cs.all plainChar = true) :
    gateway tp .passed ⟨"/api/orders".data ++ cs⟩ =
      if atBoundary cs then
        some (.forward .order ⟨outgoingPath (tp .order).data ("/orders".data ++ cs)⟩)
      else some (.respond ⟨404, messageBody "Endpoint không tồn tại trên API Gateway"⟩) := by
  have h0 : plainUrl ("/api/orders".data ++ cs) = true :=
    plainUrl_append _ _ (by decide) hp
  have h1 : mountMatches "/api/customers".data (pathname ("/api/orders".data ++ cs)) =
      false := by
    rw [pathname_append _ _ (by decide)]
    simp +decide [customers_data, orders_data, mountMatches, stripPrefixCI]
  have h2 : mountMatches "/api/products".data (pathname ("/api/orders".data ++ cs)) =
      false := by
    rw [pathname_append _ _ (by decide)]
    simp +decide [products_data, orders_data, mountMatches, stripPrefixCI]
  have h3 : mountMatches "/api/orders".data (pathname ("/api/orders".data ++ cs)) =
      atBoundary cs := by
    rw [pathname_append _ _ (by decide), mountMatches_pathname_of_atBoundary]
  simp only [gateway, h0, if_true, routes, List.find?, h1, h2, h3]
  cases atBoundary cs
  · rfl
  · simp [pathRewrite, orders_data]

theorem collapseSlashes_of_noDoubleSlash (p : List Char) (h : noDoubleSlash p = true) :
    collapseSlashes p = p := by
  induction p with
  | nil => rfl
  | cons c rest ih =>
    simp only [noDoubleSlash, Bool.and_eq_true, Bool.not_eq_true', Bool.and_eq_false_imp,
      decide_eq_true_eq, decide_eq_false_iff_not] at h
    have hc : ¬ (c = '/' ∧ rest.head? = some '/') := fun hh => h.1 hh.1 hh.2
    simp only [collapseSlashes, hc, if_false, ih h.2]

theorem replaceFirst_of_not_occurs (pat rep s : List Char) (h : occurs pat s = false) :
    replaceFirst pat rep s = s := by
  induction s with
  | nil => rfl
  | cons c rest ih =>
    simp only [occurs, Bool.or_eq_false_iff] at h
    simp only [replaceFirst, h.1, Bool.false_eq_true, if_false, ih h.2]

theorem map_backslash_of_none (p : List Char)
    (h : p.all (fun c => decide (c ≠ Char.ofNat 92)) = true) :
    p.map (fun c => if c = Char.ofNat 92 then '/' else c) = p := by
  induction p with
  | nil => rfl
  | cons c rest ih =>
    simp only [List.all_cons, Bool.and_eq_true, decide_eq_true_eq] at h
    simp only [List.map_cons, h.1, if_false, ih h.2]

/-- The proxy sends a clean URL that begins with a slash as it is, when the
backend base address has the root path. -/
theorem outgoingPath_clean (url : List Char) (h₁ : url.head? = some '/')
    (h₂ : cleanUrl url = true) : outgoingPath "/".data url = url := by
  simp only [cleanUrl, Bool.and_eq_true, Bool.not_eq_true'] at h₂
  obtain ⟨⟨⟨hb, hd⟩, hh⟩, hs⟩ := h₂
  have hhead : ∃ t, pathname url = '/' :: t := by
    cases url with
    | nil => simp at h₁
    | cons c t =>
      simp only [List.head?_cons, Option.some.injEq] at h₁
      subst h₁
      exact ⟨pathname t, by simp [pathname, List.takeWhile]⟩
  obtain ⟨t, ht⟩ := hhead
  have hj : collapseSlashes ("/".data ++ '/' :: pathname url) = pathname url := by
    rw [ht] at hd ⊢
    have : collapseSlashes ('/' :: t) = '/' :: t := collapseSlashes_of_noDoubleSlash _ hd
    show collapseSlashes ('/' :: '/' :: '/' :: t) = '/' :: t
    simp only [collapseSlashes, List.head?_cons, and_self, if_true] at this ⊢
    exact this
  have hsplit : pathname url ++ url.dropWhile (fun c => c ≠ '?') = url := by
    simp only [pathname]
    exact List.takeWhile_append_dropWhile _ _
  simp only [outgoingPath, map_backslash_of_none _ hb]
  have he : ("/".data).isEmpty = false := rfl
  simp only [he, Bool.false_eq_true, if_false, hj, replaceFirst_of_not_occurs _ _ _ hh,
    replaceFirst_of_not_occurs _ _ _ hs]
  exact hsplit

/-- A request whose URL begins with a route prefix in its configured spelling
and continues at a boundary is forwarded to that route's backend, which is
asked for the backend mount path followed by the remainder of the URL, as the
proxy sends it. -/
theorem forwarded_path_is_rewritten (tp : Service → String) (rest : String)
    (hp : rest.data.all plainChar = true) (hb : atBoundary rest.data = true) :
    gateway tp .passed ("/api/customers" ++ rest) =
        some (.forward .customer
          ⟨outgoingPath (tp .customer).data ("/customers".data ++ rest.data)⟩) ∧
      gateway tp .passed ("/api/products" ++ rest) =
        some (.forward .product
          ⟨outgoingPath (tp .product).data ("/products".data ++ rest.data)⟩) ∧
      gateway tp .passed ("/api/orders" ++ rest) =
        some (.forward .order ⟨outgoingPath (tp .order).data ("/orders".data ++ rest.data)⟩) := by
  obtain ⟨cs⟩ := rest
  refine ⟨?_, ?_, ?_⟩
  · change gateway tp .passed ⟨"/api/customers".data ++ cs⟩ = _
    rw [gateway_under_customers tp cs hp, if_pos hb]
  · change gateway tp .passed ⟨"/api/products".data ++ cs⟩ = _
    rw [gateway_under_products tp cs hp, if_pos hb]
  · change gateway tp .passed ⟨"/api/orders".data ++ cs⟩ = _
    rw [gateway_under_orders tp cs hp, if_pos hb]

/-- With backend base addresses that have the root path, a request whose URL
begins with a route prefix in its configured spelling, continues at a
boundary and is clean is forwarded under the backend mount path followed by
the remainder of the original path and the query string, unchanged. -/
theorem forwarded_path_of_clean_url (rest : String)
    (hp : rest.data.all plainChar = true) (hb : atBoundary rest.data = true) :
    (cleanUrl ("/customers".data ++ rest.data) = true →
        gateway (fun _ => "/") .passed ("/api/customers" ++ rest) =
          some (.forward .customer ("/customers" ++ rest))) ∧
      (cleanUrl ("/products".data ++ rest.data) = true →
        gateway (fun _ => "/") .passed ("/api/products" ++ rest) =
          some (.forward .product ("/products" ++ rest))) ∧
      (cleanUrl ("/orders".data ++ rest.data) = true →
        gateway (fun _ => "/") .passed ("/api/orders" ++ rest) =
          some (.forward .order ("/orders" ++ rest))) := by
  obtain ⟨h1, h2, h3⟩ := forwarded_path_is_rewritten (fun _ => "/") rest hp hb
  refine ⟨?_, ?_, ?_⟩
  · intro hc
    have ho : outgoingPath "/".data ("/customers".data ++ rest.data) =
        "/customers".data ++ rest.data := outgoingPath_clean _ rfl hc
    rw [h1]
    simp only [ho]
    rfl
  · intro hc
    have ho : outgoingPath "/".data ("/products".data ++ rest.data) =
        "/products".data ++ rest.data := outgoingPath_clean _ rfl hc
    rw [h2]
    simp only [ho]
    rfl
  · intro hc
    have ho : outgoingPath "/".data ("/orders".data ++ rest.data) =
        "/orders".data ++ rest.data := outgoingPath_clean _ rfl hc
    rw [h3]
    simp only [ho]
    rfl

/-- C9 at the failing input: `/API/customers/123?x=1` is handled by the
customers route, whose mount path is matched without regard to letter case,
but the case-sensitive rule `^/api/customers` does not apply to it, so the
Customer service is asked for `/API/customers/123?x=1` and not for
`/customers/123?x=1`, which is what it is asked for on the lower-case URL. -/
theorem gateway_case_variant_not_rewritten :
    gateway (fun _ => "/") .passed "/API/customers/123?x=1" =
        some (.forward .customer "/API/customers/123?x=1") ∧
      ("/API/customers/123?x=1" : String) ≠ "/customers/123?x=1" ∧
      gateway (fun _ => "/") .passed "/api/customers/123?x=1" =
        some (.forward .customer "/customers/123?x=1") :=
  ⟨rfl, by decide, rfl⟩

/-! ## Gateway: route resolution -/

theorem mountMatches_iff (pfx : String) (hl : pfx.data.map Char.toLower = pfx.data)
    (path : List Char) : mountMatches pfx.data path = true ↔ AtOrBeneath pfx path := by
  unfold mountMatches AtOrBeneath
  cases h : stripPrefixCI pfx.data path with
  | none =>
    constructor
    · intro hf
      cases hf
    · rintro ⟨a, b, hp, ha, _⟩
      have : stripPrefixCI pfx.data path = some b :=
        (stripPrefixCI_eq_some_iff _ _ _).2 ⟨a, hp, by rw [ha, hl]⟩
      rw [h] at this
      cases this
  | some r =>
    obtain ⟨a, hp, ha⟩ := (stripPrefixCI_eq_some_iff _ _ _).1 h
    constructor
    · intro hm
      refine ⟨a, r, hp, by rw [ha, hl], ?_⟩
      cases r with
      | nil => exact Or.inl rfl
      | cons c t =>
        right
        have hc : c = '/' := by simpa using hm
        exact ⟨t, by rw [hc]⟩
    · rintro ⟨a2, b, hp2, ha2, hb⟩
      have h2 : stripPrefixCI pfx.data path = some b :=
        (stripPrefixCI_eq_some_iff _ _ _).2 ⟨a2, hp2, by rw [ha2, hl]⟩
      rw [h] at h2
      have hrb : r = b := by simpa using h2
      subst hrb
      rcases hb with rfl | ⟨t, rfl⟩ <;> simp

theorem lower_of_atOrBeneath (pfx : String) (path : List Char) (h : AtOrBeneath pfx path) :
    ∃ b, path.map Char.toLower = pfx.data ++ b := by
  obtain ⟨a, b, hp, ha, _⟩ := h
  exact ⟨b.map Char.toLower, by rw [hp, List.map_append, ha]⟩

theorem customers_products_disjoint (path : List Char)
    (h₁ : AtOrBeneath "/api/customers" path) (h₂ : AtOrBeneath "/api/products" path) : False := by
  obtain ⟨b₁, e₁⟩ := lower_of_atOrBeneath _ _ h₁
  obtain ⟨b₂, e₂⟩ := lower_of_atOrBeneath _ _ h₂
  rw [e₁] at e₂
  simp +decide [customers_data, products_data] at e₂

theorem customers_orders_disjoint (path : List Char)
    (h₁ : AtOrBeneath "/api/customers" path) (h₂ : AtOrBeneath "/api/orders" path) : False := by
  obtain ⟨b₁, e₁⟩ := lower_of_atOrBeneath _ _ h₁
  obtain ⟨b₂, e₂⟩ := lower_of_atOrBeneath _ _ h₂
  rw [e₁] at e₂
  simp +decide [customers_data, orders_data] at e₂

theorem products_orders_disjoint (path : List Char)
    (h₁ : AtOrBeneath "/api/products" path) (h₂ : AtOrBeneath "/api/orders" path) : False := by
  obtain ⟨b₁, e₁⟩ := lower_of_atOrBeneath _ _ h₁
  obtain ⟨b₂, e₂⟩ := lower_of_atOrBeneath _ _ h₂
  rw [e₁] at e₂
  simp +decide [products_data, orders_data] at e₂

/-- The route a plain URL takes, with the body parsers passed: a request is
forwarded to the Customer, Product or Order service exactly when its path is
`/api/customers`, `/api/products` or `/api/orders` respectively, in any letter
case, or lies beneath it; every other path is answered 404 with the fixed
not-found body. -/
theorem gateway_resolution (tp : Service → String) (url : String)
    (hp : plainUrl url.data = true) :
    (AtOrBeneath "/api/customers" (pathname url.data) ↔
        ∃ fwd, gateway tp .passed url = some (.forward .customer fwd)) ∧
      (AtOrBeneath "/api/products" (pathname url.data) ↔
        ∃ fwd, gateway tp .passed url = some (.forward .product fwd)) ∧
      (AtOrBeneath "/api/orders" (pathname url.data) ↔
        ∃ fwd, gateway tp .passed url = some (.forward .order fwd)) ∧
      ((¬ AtOrBeneath "/api/customers" (pathname url.data) ∧
          ¬ AtOrBeneath "/api/products" (pathname url.data) ∧
          ¬ AtOrBeneath "/api/orders" (pathname url.data)) ↔
        gateway tp .passed url =
          some (.respond ⟨404, messageBody "Endpoint không tồn tại trên API Gateway"⟩)) := by
  have i1 := mountMatches_iff "/api/customers" (by decide) (pathname url.data)
  have i2 := mountMatches_iff "/api/products" (by decide) (pathname url.data)
  have i3 := mountMatches_iff "/api/orders" (by decide) (pathname url.data)
  have d12 := customers_products_disjoint (pathname url.data)
  have d13 := customers_orders_disjoint (pathname url.data)
  have d23 := products_orders_disjoint (pathname url.data)
  cases m1 : mountMatches "/api/customers".data (pathname url.data) <;>
    cases m2 : mountMatches "/api/products".data (pathname url.data) <;>
    cases m3 : mountMatches "/api/orders".data (pathname url.data) <;>
    simp only [m1, m2, m3, Bool.false_eq_true, false_iff, true_iff] at i1 i2 i3 <;>
    simp [gateway, hp, routes, List.find?, m1, m2, m3, i1, i2, i3] <;>
    first
      | exact (d12 i1 i2).elim
      | exact (d13 i1 i3).elim
      | exact (d23 i2 i3).elim

/-- A request whose body a body parser refuses is answered by the default
error handler with the status of the failure, whatever its URL; no route
runs. -/
theorem gateway_of_failed_body (tp : Service → String) (status : Nat) (url : String) :
    gateway tp (.failed status) url = some (.parseError status) := rfl

/-- C10 at the failing input: `/Api/Orders/7` does not begin with any of the
three prefixes in their exact casing, yet the gateway forwards it to the Order
service instead of answering 404 with its not-found body, which is what it
answers to `/api/unknown/path`. -/
theorem gateway_forwards_case_variant :
    ("/api/customers".data.isPrefixOf "/Api/Orders/7".data = false ∧
        "/api/products".data.isPrefixOf "/Api/Orders/7".data = false ∧
        "/api/orders".data.isPrefixOf "/Api/Orders/7".data = false) ∧
      gateway (fun _ => "/") .passed "/Api/Orders/7" =
        some (.forward .order "/Api/Orders/7") ∧
      gateway (fun _ => "/") .passed "/api/unknown/path" =
        some (.respond ⟨404, messageBody "Endpoint không tồn tại trên API Gateway"⟩) :=
  ⟨by decide, rfl, rfl⟩

/-! ## Store errors that no handler recognises -/

/-- An error that is neither the no-row error nor, where that code is handled,
a unique violation, is answered 500 with a body fixed per handler: by every
list, get-by-id, create and delete handler whatever the error holds, and by
the three update handlers when the error has a message that does not contain
`exactly one row`. -/
theorem unrecognized_error_is_500 (store : Store) (e : StoreError)
    (h : ∀ q, (store q).error = some e) (h₁ : e.code ≠ some "PGRST116")
    (h₂ : e.code ≠ some "23505") :
    ((getCustomers store).outcome = .respond ⟨500, errorBody "Lỗi server nội bộ"⟩ ∧
      (∀ id, (getCustomerById id store).outcome =
        .respond ⟨500, errorBody "Lỗi server nội bộ"⟩) ∧
      (∀ body, (postCustomer body store).calls ≠ [] → (postCustomer body store).outcome =
        .respond ⟨500, errorBody "Lỗi server nội bộ khi tạo khách hàng"⟩) ∧
      (∀ id body m, (putCustomer id body store).calls ≠ [] → e.message = some m →
        includes m "exactly one row" = false → (putCustomer id body store).outcome =
        .respond ⟨500, errorBody "Lỗi server nội bộ khi cập nhật khách hàng"⟩) ∧
      (∀ id, (deleteCustomer id store).outcome =
        .respond ⟨500, errorBody "Lỗi server nội bộ khi xóa khách hàng"⟩)) ∧
    ((getProducts store).outcome = .respond ⟨500, errorBody "Lỗi server nội bộ"⟩ ∧
      (∀ id, (getProductById id store).outcome =
        .respond ⟨500, errorBody "Lỗi server nội bộ"⟩) ∧
      (∀ body, (postProduct body store).calls ≠ [] → (postProduct body store).outcome =
        .respond ⟨500, errorBody "Lỗi server nội bộ khi tạo sản phẩm"⟩) ∧
      (∀ id body m, (putProduct id body store).calls ≠ [] → e.message = some m →
        includes m "exactly one row" = false → (putProduct id body store).outcome =
        .respond ⟨500, errorBody "Lỗi server nội bộ khi cập nhật sản phẩm"⟩) ∧
      (∀ id, (deleteProduct id store).outcome =
        .respond ⟨500, errorBody "Lỗi server nội bộ khi xóa sản phẩm"⟩)) ∧
    ((∀ query, (getOrders query store).outcome =
        .respond ⟨500, errorBody "Lỗi server nội bộ"⟩) ∧
      (∀ id, (getOrderById id store).outcome =
        .respond ⟨500, errorBody "Lỗi server nội bộ"⟩) ∧
      (∀ body, (postOrder body store).calls ≠ [] → (postOrder body store).outcome =
        .respond ⟨500, errorBody "Lỗi server nội bộ khi tạo đơn hàng"⟩) ∧
      (∀ id body m, (patchOrderStatus id body store).calls ≠ [] → e.message = some m →
        includes m "exactly one row" = false → (patchOrderStatus id body store).outcome =
        .respond ⟨500, errorBody "Lỗi server nội bộ khi cập nhật trạng thái"⟩)) := by
  refine ⟨⟨?_, ?_, ?_, ?_, ?_⟩, ⟨?_, ?_, ?_, ?_, ?_⟩, ⟨?_, ?_, ?_, ?_⟩⟩
  · simp [getCustomers, h]
  · intro id
    simp [getCustomerById, h, h₁]
  · intro body hcalls
    by_cases hv : (!(getField body "name").truthy || !(getField body "email").truthy) = true
    · simp only [postCustomer, hv, if_true, reject] at hcalls
      exact absurd rfl hcalls
    · simp only [postCustomer, hv, if_false, h, h₂]
      rfl
  · intro id body m hcalls hm hinc
    by_cases hv : (customerUpdates body).length = 0
    · simp only [putCustomer, hv, if_true, reject] at hcalls
      exact absurd rfl hcalls
    · simp [putCustomer, hv, h, h₁, h₂, messageIncludes, hm, hinc]
  · intro id
    simp [deleteCustomer, h]
  · simp [getProducts, h]
  · intro id
    simp [getProductById, h, h₁]
  · intro body hcalls
    obtain ⟨p, q, _, _, _, _, _, heq⟩ := postProduct_accepted body store hcalls
    rw [heq]
    simp [postProductInsert, h]
  · intro id body m hcalls hm hinc
    obtain ⟨pe, se, heq, _, _⟩ := putProduct_accepted id body store hcalls
    rw [heq] at hcalls ⊢
    generalize productUpdatesBase body ++ pe ++ se = u at hcalls ⊢
    by_cases hv : u.length = 0
    · simp only [putProductUpdate, hv, if_true, reject] at hcalls
      exact absurd rfl hcalls
    · simp [putProductUpdate, hv, h, h₁, messageIncludes, hm, hinc]
  · intro id
    simp [deleteProduct, h]
  · intro query
    simp [getOrders, h]
  · intro id
    simp [getOrderById, h, h₁]
  · intro body hcalls
    obtain ⟨t, _, _, _, _, heq⟩ := postOrder_accepted body store hcalls
    rw [heq]
    simp [postOrderInsert, h]
  · intro id body m hcalls hm hinc
    by_cases hv : (!(getField body "status").truthy) = true
    · simp only [patchOrderStatus, hv, if_true, reject] at hcalls
      exact absurd rfl hcalls
    · simp [patchOrderStatus, hv, h, h₁, messageIncludes, hm, hinc]

/-- C11 at the failing input: an update request that reaches the store and is
answered with an error that has an unrecognised code and no message is not
answered 500 by `PUT /customers/:id`, `PUT /products/:id` and
`PATCH /orders/:id/status`: the test `error.message.includes(...)` raises and
the handler writes no response.  The get-by-id handler, which does not read
the message, answers the same error with 500. -/
theorem update_error_without_message_throws :
    ((putCustomer "c1" [("name", .str "Ann")]
          fun _ => ⟨.null, some ⟨some "XX000", none⟩⟩).outcome = .throws ∧
        (putCustomer "c1" [("name", .str "Ann")]
          fun _ => ⟨.null, some ⟨some "XX000", none⟩⟩).status = none) ∧
      ((putProduct "p1" [("price", .num (.fin 3))]
          fun _ => ⟨.null, some ⟨some "XX000", none⟩⟩).outcome = .throws ∧
        (putProduct "p1" [("price", .num (.fin 3))]
          fun _ => ⟨.null, some ⟨some "XX000", none⟩⟩).status = none) ∧
      ((patchOrderStatus "o1" [("status", .str "shipped")]
          fun _ => ⟨.null, some ⟨some "XX000", none⟩⟩).outcome = .throws ∧
        (patchOrderStatus "o1" [("status", .str "shipped")]
          fun _ => ⟨.null, some ⟨some "XX000", none⟩⟩).status = none) ∧
      (getCustomerById "c1" fun _ => ⟨.null, some ⟨some "XX000", none⟩⟩).status = some 500 :=
  ⟨⟨rfl, rfl⟩, ⟨rfl, rfl⟩, ⟨rfl, rfl⟩, rfl⟩

end Microservice
